import Mathlib

/-!
Verification development for the Cache-Sniper position monitor and
exit-strategy state machine (`src/trader.py`, class `PaperTrader`).

The embedding models, per token address, the mutable state touched by
`PaperTrader.monitor_position` and `PaperTrader.sell`: the persisted trade
row (`trades` table, with its JSON `meta` blob), the append-only
`sell_transactions` ledger, the in-memory registries (`active_monitors`,
`pending_sells`, `sell_cooldowns`) and the dynamic per-address attributes
(`_loop_`, `_cached_data_`, `_tp_lock_`, `_last_valid_price_`,
`_price_fail_count_`).  Prices, fractions and times are rationals; Python
floats are embedded as exact rationals.  Network calls (Jupiter, Helius,
DexScreener, the swap engine) are inputs supplied per poll cycle.

Purely cosmetic effects of the source (print statements, Discord embeds,
snapshots, the `peak_mc` column, numeric suffixes interpolated into reason
strings) are omitted; every branch that mutates trade state, the ledger,
the stop loss, the tier locks or the loop control is transcribed.
-/

namespace CacheSniper

/-! ### Configuration constants (src/config.py) -/

def HARD_STOP_LOSS : ℚ := 7/10          -- 0.70
def TRAILING_STOP_PERCENT : ℚ := 35/100 -- 0.35
def TP1_FACTOR : ℚ := 9/5               -- 1.8
def TP1_AMOUNT : ℚ := 1/2               -- 0.50
def TP1_SL : ℚ := 7/5                   -- 1.4
def TP2_FACTOR : ℚ := 3                 -- 3.0
def TP2_AMOUNT : ℚ := 1/5               -- 0.20
def TP2_SL : ℚ := 2                     -- 2.0
def TP3_FACTOR : ℚ := 5                 -- 5.0
def TP3_AMOUNT : ℚ := 3/20              -- 0.15
def TP3_SL : ℚ := 3                     -- 3.0
def SIMULATED_SLIPPAGE : ℚ := 1/50      -- 0.02
def PRIORITY_FEE : ℚ := 3/10000         -- 0.0003
def SELL_COOLDOWN_SECONDS : ℚ := 20

/-! ### Data model -/

/-- Trade status values stored in the `trades.status` column. -/
inductive Status where
  | OPEN
  | PARTIAL
  | MOONBAG
  | CLOSED
  | SELL_REQUEST
deriving DecidableEq, Repr

/-- The JSON `meta` blob of a trade row, restricted to the keys read or
written by `monitor_position` and `sell`.  A key absent from the dict reads
as the default via `meta.get`, which is how a fresh position starts
(`buy` initialises meta to `{'entry_mc', 'max_mc_hit', 'events',
'entry_tokens'}`, trader.py:1499 — none of the flags below are present).
`tp1HitLegacy`, `tp2HitLegacy` and `clipCount` embed the keys `tp1_hit`,
`tp2_hit` and `clip_count`, which trader.py reads (lines 472-474, 600) but
never writes. -/
structure Meta where
  breakEvenLocked : Bool := false      -- 'break_even_locked'
  tp2xHit : Bool := false              -- 'tp_2x_hit'
  tp3Hit : Bool := false               -- 'tp3_hit'
  tp4Hit : Bool := false               -- 'tp4_hit'
  tp1HitLegacy : Bool := false         -- 'tp1_hit'  (read only, never set)
  tp2HitLegacy : Bool := false         -- 'tp2_hit'  (read only, never set)
  clipCount : ℕ := 0                   -- 'clip_count' (read only, never set)
  volumeDecayTriggered : Bool := false -- 'volume_decay_triggered'
  lastXAlert : ℤ := 1                  -- 'last_x_alert' (default 1)
  peakVolume : ℚ := 0                  -- 'peak_volume'
  maxMcHit : ℚ := 0                    -- 'max_mc_hit'
  isPaper : Bool := false              -- 'is_paper'
  externalSell : Bool := false         -- 'external_sell'
deriving DecidableEq, Repr

/-- A row of the `trades` table (the fields the monitor and sell touch). -/
structure Trade where
  status : Status
  entryPrice : ℚ
  amountSol : ℚ
  pnlPercent : ℚ
  meta : Meta
deriving DecidableEq, Repr

/-- A row of the `sell_transactions` ledger
(`Database.log_sell`, database.py:282-296). -/
structure SellRecord where
  sellPrice : ℚ
  amountSolReceived : ℚ
  percentageSold : ℚ
  reason : String
deriving DecidableEq, Repr

/-- Per-address slice of the trader's state: the persisted trade row and
ledger, plus the in-memory registries of `PaperTrader.__init__`
(`pending_sells`, `sell_cooldowns`, `active_monitors`) and the escalation
webhooks sent so far. -/
structure TraderState where
  trade : Option Trade
  ledger : List SellRecord
  pendingSell : Bool
  cooldownAt : Option ℚ
  activeMonitor : Bool
  notifications : List String
deriving DecidableEq, Repr

/-- Sum of `percentageSold` over the ledger. -/
def ledgerSoldSum (l : List SellRecord) : ℚ :=
  (l.map (fun r => r.percentageSold)).sum

/-! ### The sell executor (`PaperTrader.sell`, trader.py:1638-1968) -/

/-- Behaviour of the external engine during one `sell` call.
`attemptBalance k` and `attemptTxSig k` are the token balance seen and
whether a transaction signature was obtained at retry attempt `k` of the
real-mode loop; `initialBalance` is the balance found by the initial
3-attempt fetch; `realPnl` abstracts the PnL computed from on-chain SOL
movements on the success path (trader.py:1768-1829); `solReceived` is the
SOL amount recorded in the ledger; `duration` is the wall-clock time the
call consumes after initiation (sleeps, retries, confirmation waits). -/
structure SellEnv where
  realMode : Bool
  initialBalance : ℚ
  attemptBalance : ℕ → ℚ
  attemptTxSig : ℕ → Bool
  realPnl : ℚ
  solReceived : ℚ
  duration : ℚ

/-- Cooldown guard at the top of `sell` (trader.py:1642-1650): blocked when
a previous timestamp exists and less than 20 s have elapsed since it. -/
def cooldownActive (s : TraderState) (now : ℚ) : Bool :=
  match s.cooldownAt with
  | none => false
  | some t => decide (now - t < SELL_COOLDOWN_SECONDS)

/-- The real-mode retry loop (trader.py:1702-1757).  Returns
`(sell_success, tx_sig is truthy)`.  The loop breaks with success as soon
as the balance is gone ("Tokens already sold") or any attempt yields a
transaction signature (all three verification sub-cases set
`sell_success = True` and break; the TX is never resubmitted).  `txSig`
starts truthy because the variable is initialised to `"PAPER_TX"`
(trader.py:1674) and is overwritten by each attempt. -/
def realSellLoopGo (env : SellEnv) : ℕ → ℕ → Bool → Bool × Bool
  | _, 0, txSig => (false, txSig)
  | k, fuel + 1, txSig =>
    if env.attemptBalance k ≤ 0 then (true, txSig)
    else if env.attemptTxSig k then (true, true)
    else realSellLoopGo env (k + 1) fuel false

/-- The five-attempt real-mode sell loop (`max_sell_attempts = 5`). -/
def realSellLoop (env : SellEnv) : Bool × Bool :=
  realSellLoopGo env 0 5 true

/-- The loud operator escalation sent when all attempts fail
(trader.py:1760-1765). -/
def sellFailedMsg : String := "SELL FAILED: manual intervention needed"

/-- `finally:` clause — the in-flight lock is always released
(trader.py:1966-1968). -/
def release (s : TraderState) : TraderState := { s with pendingSell := false }

/-- Status transition at the end of a successful sell (trader.py:1848-1872):
`PARTIAL` below 100 %, `CLOSED` at 100 % (which also removes the address
from `active_monitors`, trader.py:1861-1862); then
`update_trade(address, new_status, pnl_percent, meta)`. -/
def finishSell (s : TraderState) (trade : Trade) (pnl percentage : ℚ) :
    TraderState :=
  if percentage < 1 then
    { s with trade := some { trade with status := Status.PARTIAL,
                                        pnlPercent := pnl } }
  else
    { s with trade := some { trade with status := Status.CLOSED,
                                        pnlPercent := pnl },
             activeMonitor := false }

/-- `PaperTrader.sell` (trader.py:1638-1968).  Returns the new state and
the time at which the call returns (`now` plus the engine time it spent;
skip paths return immediately).  The cooldown timestamp is recorded at
initiation, before any engine call (trader.py:1657). -/
def sell (s : TraderState) (env : SellEnv) (now currentPrice percentage : ℚ)
    (reason : String) : TraderState × ℚ :=
  if cooldownActive s now then (s, now)
  else if s.pendingSell then (s, now)
  else
    let s1 : TraderState := { s with pendingSell := true, cooldownAt := some now }
    match s1.trade with
    | none => (release s1, now)
    | some trade =>
      let usePaper := !env.realMode || trade.meta.isPaper
      if usePaper then
        -- paper branch (trader.py:1781-1811)
        let exitPrice := currentPrice * (1 - SIMULATED_SLIPPAGE)
        let amountToSellSol := trade.amountSol * percentage
        let pnl := (exitPrice - trade.entryPrice) / trade.entryPrice
        let revenueSol := amountToSellSol * (1 + pnl)
        let netReturnSol := revenueSol - PRIORITY_FEE
        let s2 := { s1 with ledger :=
          s1.ledger ++ [⟨exitPrice, netReturnSol, percentage, reason⟩] }
        (release (finishSell s2 trade pnl percentage), now + env.duration)
      else
        -- real branch (trader.py:1676-1846)
        if env.initialBalance ≤ 0 then
          -- "No Token Balance found after 3 attempts" (trader.py:1687-1689)
          (release s1, now + env.duration)
        else
          let r := realSellLoop env
          if r.1 = false then
            -- failure after bounded retries: loud escalation, return
            -- (trader.py:1759-1766)
            (release { s1 with notifications := sellFailedMsg :: s1.notifications },
             now + env.duration)
          else
            let pnl := env.realPnl
            let s2 := if r.2 then
                { s1 with ledger :=
                  s1.ledger ++ [⟨currentPrice, env.solReceived, percentage, reason⟩] }
              else s1
            (release (finishSell s2 trade pnl percentage), now + env.duration)

/-! ### The monitoring loop (`PaperTrader.monitor_position`, trader.py:188-657) -/

/-- The in-memory tier lock set `_tp_lock_{address}` (trader.py:514-519):
locks `'2x'`, `'3x'`, `'5x'` added synchronously before the awaited sell. -/
structure TpLocks where
  lock2x : Bool := false
  lock3x : Bool := false
  lock5x : Bool := false
deriving DecidableEq, Repr

/-- Local state of one `monitor_position` run: the function's local
variables plus the dynamic per-address attributes, together with the
shared trader state. -/
structure MonitorState where
  ts : TraderState
  highestPrice : ℚ
  stopLossPrice : ℚ
  previousPrice : ℚ
  loopCount : ℕ          -- _loop_{address}
  tpLocks : TpLocks      -- _tp_lock_{address}
  cachedDataPrice : Option ℚ  -- price field of _cached_data_{address}
  lastValidPrice : ℚ     -- _last_valid_price_{address} (0 = unset)
  priceFailCount : ℕ     -- _price_fail_count_{address}
deriving DecidableEq, Repr

/-- Entry of `monitor_position` (trader.py:198-203) as spawned by
`start_monitor`: locals initialised from the entry price, no per-address
attributes yet. -/
def monitorInit (ts : TraderState) (entryPrice : ℚ) : MonitorState :=
  { ts := ts
    highestPrice := entryPrice
    stopLossPrice := entryPrice * HARD_STOP_LOSS
    previousPrice := entryPrice
    loopCount := 0
    tpLocks := {}
    cachedDataPrice := none
    lastValidPrice := 0
    priceFailCount := 0 }

/-- A process restart followed by `resume_monitoring`
(trader.py:1617-1636): the trade row and ledger persist in the database,
all in-memory registries are gone, and `start_monitor` re-adds the address
to `active_monitors` (for a non-CLOSED trade). -/
def restartState (ts : TraderState) : TraderState :=
  { trade := ts.trade
    ledger := ts.ledger
    pendingSell := false
    cooldownAt := none
    activeMonitor := true
    notifications := [] }

/-- External inputs consumed by one iteration of the monitoring loop.
Price feeds return `0` on failure (`get_realtime_price` /
`get_helius_price` return `0.0` when the lookup fails); `freshData` and
`freshData2` are the prices of the two possible `get_token_data` calls of
the iteration (cache refresh, trader.py:276-279, and the fresh fallback
fetch, trader.py:288-295). -/
structure CycleInput where
  jupPrice : ℚ
  heliusPrice : ℚ
  freshData : Option ℚ
  freshData2 : Option ℚ
  now : ℚ
  timeHeldMins : ℚ
  buys5m : ℚ
  sells5m : ℚ
  tokenBalance : ℚ
  currentMc : ℚ
  sellEnv : SellEnv

/-- Observable events of one iteration (alerts broadcast, invocations of
`self.sell` with their fraction and reason, whether the iteration was
skipped for lack of any price, the price used for exit-condition
evaluation, and threshold log lines). -/
structure CycleEvents where
  alerts : List ℤ := []
  sellCalls : List (ℚ × String) := []
  bundle : Option (ℚ × List String) := none
  skipped : Bool := false
  priceUsed : Option ℚ := none
  logs : List String := []
deriving DecidableEq, Repr

/-- Result of one loop iteration: updated state, whether the loop keeps
running (`false` embeds `break`), and the events. -/
structure CycleResult where
  st : MonitorState
  continueLoop : Bool
  events : CycleEvents
deriving Repr

/-- Escalating log lines on consecutive price-fetch failures
(trader.py:310-318).  The source's `fail_count == 100` line interpolates
`meta`, a variable only bound later in the loop body (trader.py:316, 449);
when no iteration has reached that binding the print raises a `NameError`
that the iteration's `except` swallows — the model keeps the intended log
line and ignores that wart, which does not change any state. -/
def failLogs (failCount : ℕ) : List String :=
  if failCount = 10 then ["10 consecutive price fetch failures"]
  else if failCount = 50 then ["50 consecutive price fetch failures - potential dead token?"]
  else if failCount = 100 then ["100+ consecutive failures - TOKEN LIKELY DEAD"]
  else if failCount % 100 = 0 then ["consecutive failures - STILL STUCK"]
  else []

/-- Outcome of the price-resolution section of one iteration
(trader.py:255-339). -/
structure PriceResolution where
  price : Option ℚ          -- `none` embeds the `continue` at trader.py:327
  cachedDataPrice : Option ℚ
  previousPrice : ℚ
  lastValidPrice : ℚ
  priceFailCount : ℕ
  logs : List String
deriving DecidableEq, Repr

/-- Price fallback chain of one iteration (trader.py:255-339):
Jupiter → Helius → fresh DexScreener fetch → cached DexScreener data →
last known-good price → skip.  Also performs the volatility-adaptive
cache refresh (trader.py:258-281), updates `previous_price`, and tracks
the consecutive-failure counter. -/
def resolvePrice (s : MonitorState) (i : CycleInput) (loopCount : ℕ) :
    PriceResolution :=
  let cp0 := i.jupPrice
  let rate : ℚ :=
    if s.previousPrice > 0 ∧ cp0 > 0 then |cp0 - s.previousPrice| / s.previousPrice
    else 0
  let newPrev := if cp0 > 0 then cp0 else s.previousPrice
  let interval : ℕ := if rate > 1/50 then 5 else 30
  let cache1 :=
    if loopCount % interval = 1 ∨ s.cachedDataPrice = none then
      match i.freshData with
      | some d => some d
      | none => s.cachedDataPrice
    else s.cachedDataPrice
  let cp1 := if cp0 = 0 then i.heliusPrice else cp0
  let fetched : ℚ × Option ℚ :=
    if cp1 = 0 then
      match i.freshData2 with
      | some p => (p, some p)
      | none => (cp1, cache1)
    else (cp1, cache1)
  let cp2 := fetched.1
  let cache2 := fetched.2
  let cp3 := if cp2 = 0 then (match cache2 with | some c => c | none => 0) else cp2
  if cp3 = 0 then
    let fc := s.priceFailCount + 1
    if s.lastValidPrice > 0 then
      { price := some s.lastValidPrice
        cachedDataPrice := cache2
        previousPrice := newPrev
        lastValidPrice := s.lastValidPrice
        priceFailCount := fc
        logs := failLogs fc }
    else
      { price := none
        cachedDataPrice := cache2
        previousPrice := newPrev
        lastValidPrice := s.lastValidPrice
        priceFailCount := fc
        logs := failLogs fc }
  else
    { price := some cp3
      cachedDataPrice := cache2
      previousPrice := newPrev
      lastValidPrice := cp3
      priceFailCount := 0
      logs := [] }

/-- `if new > current: current = new` — the ratchet used for every
stop-loss move (trader.py:505-506, 529-530, 543-544, 613-614). -/
def raiseTo (sl new : ℚ) : ℚ := if new > sl then new else sl

/-- Accumulator of the smart-bundling section (trader.py:480-482) threaded
through the take-profit tier checks. -/
structure TpState where
  totalSellPct : ℚ
  sellReasons : List String
  stopLoss : ℚ
  meta : Meta
  locks : TpLocks
  triggered : Bool
deriving DecidableEq, Repr

/-- TP1 block (trader.py:521-533): fire at `entry × 1.8` when neither the
persisted `tp_2x_hit` flag nor the in-memory `'2x'` lock is set; the lock
is added immediately, before the awaited sell. -/
def tp1Step (entry price : ℚ) (t : TpState) : TpState :=
  if decide (price ≥ entry * TP1_FACTOR) && !t.meta.tp2xHit && !t.locks.lock2x then
    { t with locks := { t.locks with lock2x := true }
             totalSellPct := t.totalSellPct + TP1_AMOUNT
             sellReasons := t.sellReasons ++ ["TP (1.8x)"]
             stopLoss := raiseTo t.stopLoss (entry * TP1_SL)
             meta := { t.meta with tp2xHit := true }
             triggered := true }
  else t

/-- TP2 block (trader.py:535-547): fire at `entry × 3.0`, guarded by
`tp3_hit` and the `'3x'` lock. -/
def tp2Step (entry price : ℚ) (t : TpState) : TpState :=
  if decide (price ≥ entry * TP2_FACTOR) && !t.meta.tp3Hit && !t.locks.lock3x then
    { t with locks := { t.locks with lock3x := true }
             totalSellPct := t.totalSellPct + TP2_AMOUNT
             sellReasons := t.sellReasons ++ ["TP (3.0x)"]
             stopLoss := raiseTo t.stopLoss (entry * TP2_SL)
             meta := { t.meta with tp3Hit := true }
             triggered := true }
  else t

/-- TP3 block (trader.py:549-559): fire at `entry × 5.0`, guarded by
`tp4_hit` and the `'5x'` lock;
`new_sl = max(stop_loss_price, entry * TP3_SL)`. -/
def tp3Step (entry price : ℚ) (t : TpState) : TpState :=
  if decide (price ≥ entry * TP3_FACTOR) && !t.meta.tp4Hit && !t.locks.lock5x then
    { t with locks := { t.locks with lock5x := true }
             totalSellPct := t.totalSellPct + TP3_AMOUNT
             sellReasons := t.sellReasons ++ ["TP (5.0x)"]
             stopLoss := max t.stopLoss (entry * TP3_SL)
             meta := { t.meta with tp4Hit := true }
             triggered := true }
  else t

/-- Python `int()` on the nonnegative price multiples involved
(truncation toward zero). -/
def pyInt (q : ℚ) : ℤ := if q < 0 then -⌊-q⌋ else ⌊q⌋

/-- `n` consecutive integers starting at `a`. -/
def intRangeGo (a : ℤ) : ℕ → List ℤ
  | 0 => []
  | n + 1 => a :: intRangeGo (a + 1) n

/-- `[a, a+1, ..., b]` over ℤ (empty when `b < a`) — the embedding of
Python's `range(start, end + 1)` iteration at trader.py:580. -/
def intRange (a b : ℤ) : List ℤ := intRangeGo a (b + 1 - a).toNat

/-- The granular profit-alert milestones of one iteration
(trader.py:569-589): all integers from `last_x_alert + 1` up to
`int(current_x)` inclusive, in ascending order, provided
`int(current_x) > last_x_alert` and `current_x ≥ 2`. -/
def alertMilestones (lastXAlert : ℤ) (currentX : ℚ) : List ℤ :=
  if pyInt currentX > lastXAlert ∧ currentX ≥ 2 then
    intRange (lastXAlert + 1) (pyInt currentX)
  else []

/-- `Database.update_trade` with a meta dict (database.py:262-280):
`UPDATE trades SET status, pnl_percent, meta WHERE address` on the current
row (no-op when the row is gone). -/
def updateTrade (ts : TraderState) (status : Status) (pnl : ℚ) (meta : Meta) :
    TraderState :=
  match ts.trade with
  | none => ts
  | some tr =>
    { ts with trade := some { tr with status := status, pnlPercent := pnl,
                                      meta := meta } }

/-- `Database.update_trade` without a meta argument (the meta column is
left untouched, database.py:271-273). -/
def updateTradeNoMeta (ts : TraderState) (status : Status) (pnl : ℚ) :
    TraderState :=
  match ts.trade with
  | none => ts
  | some tr =>
    { ts with trade := some { tr with status := status, pnlPercent := pnl } }

/-- `max_mc_hit` tracking (trader.py:466-470): bump the stored peak market
cap and persist. -/
def mcStep (currentMc : ℚ) (meta0 : Meta) (ts : TraderState) (status : Status)
    (pnl : ℚ) : Meta × TraderState :=
  if currentMc > meta0.maxMcHit then
    let m := { meta0 with maxMcHit := currentMc }
    (m, updateTrade ts status pnl m)
  else (meta0, ts)

/-- Break-even lock (trader.py:490-497): once unrealised gain reaches +50 %
and the flag is unset, ratchet the stop loss to the entry price (only when
entry is above the current stop), set the flag and persist.  Returns the
new stop loss, meta and trader state. -/
def beStep (entry sl pnl : ℚ) (meta : Meta) (ts : TraderState)
    (status : Status) : ℚ × Meta × TraderState :=
  if pnl ≥ 1/2 ∧ ¬meta.breakEvenLocked then
    if entry > sl then
      let m := { meta with breakEvenLocked := true }
      (entry, m, updateTrade ts status pnl m)
    else (sl, meta, ts)
  else (sl, meta, ts)

/-- Granular profit alerts (trader.py:569-589): one broadcast per integer
multiple crossed since `last_x_alert`, then persist the new watermark. -/
def alertStep (entry p pnl : ℚ) (meta : Meta) (ts : TraderState)
    (status : Status) : List ℤ × Meta × TraderState :=
  let currentX := if entry > 0 then p / entry else 0
  if pyInt currentX > meta.lastXAlert ∧ currentX ≥ 2 then
    let m := { meta with lastXAlert := pyInt currentX }
    (alertMilestones meta.lastXAlert currentX, m, updateTrade ts status pnl m)
  else ([], meta, ts)

/-- Everything after the price resolution in one loop iteration
(trader.py:342-649): manual override, zombie kill, break-even lock,
trailing stop, the three take-profit tiers with their in-memory locks,
granular profit alerts, the bundled sell, moonbag trailing, volume decay,
hard stop loss, and the PnL-drift write.  `trade` is the row fetched at
the top of the iteration, `p` the resolved current price. -/
def decisionCore (entry : ℚ) (trade : Trade) (s : MonitorState)
    (i : CycleInput) (p : ℚ) (logs0 : List String) : CycleResult :=
  let pnl := (p - entry) / entry
  let highest := if p > s.highestPrice then p else s.highestPrice
  let status := trade.status
  let meta0 := trade.meta
  -- manual override (trader.py:461-464)
  if status = Status.SELL_REQUEST then
    let ts1 := (sell s.ts i.sellEnv i.now p 1 "Manual Panic Sell").1
    ⟨{ s with ts := ts1, highestPrice := highest }, false,
     { sellCalls := [(1, "Manual Panic Sell")], priceUsed := some p, logs := logs0 }⟩
  else
    -- max_mc_hit tracking (trader.py:466-470)
    let mcPair := mcStep i.currentMc meta0 s.ts status pnl
    let meta1 := mcPair.1
    let ts1 := mcPair.2
    -- zombie trade protection (trader.py:484-488)
    if i.timeHeldMins > 360 ∧ pnl < 0 then
      let ts2 := (sell ts1 i.sellEnv i.now p 1 "ZOMBIE KILL").1
      ⟨{ s with ts := ts2, highestPrice := highest }, false,
       { sellCalls := [(1, "ZOMBIE KILL")], priceUsed := some p, logs := logs0 }⟩
    else
      -- break-even lock (trader.py:490-497)
      let beRes := beStep entry s.stopLossPrice pnl meta1 ts1 status
      let sl1 := beRes.1
      let meta2 := beRes.2.1
      let ts2 := beRes.2.2
      -- trailing stop above +50% (trader.py:499-507)
      let sl2 := if pnl ≥ 1/2 then raiseTo sl1 (highest * (65/100)) else sl1
      -- take-profit tiers with in-memory locks (trader.py:509-559)
      let t3 := tp3Step entry p (tp2Step entry p
                  (tp1Step entry p ⟨0, [], sl2, meta2, s.tpLocks, false⟩))
      -- granular profit alerts (trader.py:569-589)
      let alertRes := alertStep entry p pnl t3.meta ts2 status
      let alerts := alertRes.1
      let meta4 := alertRes.2.1
      let ts3 := alertRes.2.2
      -- bundled sell execution (trader.py:591-602)
      if t3.totalSellPct > 0 then
        let totalCapped := min t3.totalSellPct 1
        let reasonStr := String.intercalate " + " t3.sellReasons
        let ts4 := (sell ts3 i.sellEnv i.now p totalCapped reasonStr).1
        let newStatus := if meta4.tp2HitLegacy then Status.MOONBAG
                         else Status.PARTIAL
        let ts5 := updateTrade ts4 newStatus pnl meta4
        ⟨{ s with ts := ts5, highestPrice := highest,
                  stopLossPrice := t3.stopLoss, tpLocks := t3.locks }, true,
         { alerts := alerts, sellCalls := [(totalCapped, reasonStr)],
           bundle := some (t3.totalSellPct, t3.sellReasons),
           priceUsed := some p, logs := logs0 }⟩
      else
        -- persist a trigger with no sell (trader.py:604-606)
        let ts4 := if t3.triggered then updateTrade ts3 status pnl meta4 else ts3
        -- moonbag trailing stop (trader.py:608-614); `tp4_hit` and
        -- `clip_count` were bound before the tier blocks ran
        let sl3 := if meta2.tp4Hit ∨ meta0.clipCount ≥ 3 then
            raiseTo t3.stopLoss (highest * (1 - TRAILING_STOP_PERCENT))
          else t3.stopLoss
        -- volume decay detection (trader.py:616-635)
        let vol := i.buys5m + i.sells5m
        let peak := if vol > meta4.peakVolume then vol else meta4.peakVolume
        if (¬meta4.volumeDecayTriggered ∧ pnl > 1/5) ∧
            (peak > 50 ∧ vol < peak * (1/2)) then
          let ts5 := (sell ts4 i.sellEnv i.now p (1/4) "VOLUME DECAY").1
          let meta5 := if vol > meta4.peakVolume then
              { meta4 with peakVolume := vol } else meta4
          let meta6 := { meta5 with volumeDecayTriggered := true }
          let ts6 := updateTrade ts5 status pnl meta6
          ⟨{ s with ts := ts6, highestPrice := highest,
                    stopLossPrice := sl3, tpLocks := t3.locks }, true,
           { alerts := alerts, sellCalls := [(1/4, "VOLUME DECAY")],
             priceUsed := some p, logs := logs0 }⟩
        else
          -- hard stop loss (trader.py:637-645)
          if p ≤ sl3 then
            let ts5 := (sell ts4 i.sellEnv i.now p 1 "STOP LOSS").1
            ⟨{ s with ts := ts5, highestPrice := highest,
                      stopLossPrice := sl3, tpLocks := t3.locks }, false,
             { alerts := alerts, sellCalls := [(1, "STOP LOSS")],
               priceUsed := some p, logs := logs0 }⟩
          else
            -- PnL drift write (trader.py:647-649)
            let ts5 := if |pnl - trade.pnlPercent| > 1/100 then
                updateTradeNoMeta ts4 status pnl
              else ts4
            ⟨{ s with ts := ts5, highestPrice := highest,
                      stopLossPrice := sl3, tpLocks := t3.locks }, true,
             { alerts := alerts, priceUsed := some p, logs := logs0 }⟩

/-- Write-back of the price-resolution bookkeeping into the per-address
attributes (trader.py:276-339 mutate `_cached_data_`, `_last_valid_price_`
and `_price_fail_count_`, and line 264 updates `previous_price`). -/
def afterPrice (s0 : MonitorState) (pr : PriceResolution) : MonitorState :=
  { s0 with cachedDataPrice := pr.cachedDataPrice,
            previousPrice := pr.previousPrice,
            lastValidPrice := pr.lastValidPrice,
            priceFailCount := pr.priceFailCount }

/-- One iteration of the monitoring loop (trader.py:204-653): loop-count
bump, trade fetch with terminal check, throttled external-sell detection,
price resolution, then the decision core.  `entry` is the `entry_price`
argument of `monitor_position`. -/
def monitorCycle (entry : ℚ) (s : MonitorState) (i : CycleInput) : CycleResult :=
  let loopCount := s.loopCount + 1
  let s0 := { s with loopCount := loopCount }
  match s0.ts.trade with
  | none => ⟨s0, false, {}⟩
  | some trade =>
    if trade.status = Status.CLOSED then ⟨s0, false, {}⟩
    else if loopCount % 60 = 0 ∧ i.sellEnv.realMode = true ∧ i.tokenBalance ≤ 0 then
      -- external sell detection (trader.py:215-253): log a synthetic full
      -- sell via db.log_sell and close the trade
      let cp := if i.jupPrice ≤ 0 then i.heliusPrice else i.jupPrice
      let pnl := if cp > 0 then (cp - entry) / entry else 0
      let meta1 := { trade.meta with externalSell := true }
      let solReceived := trade.amountSol * (1 + pnl)
      let ts1 := { s0.ts with ledger :=
        s0.ts.ledger ++ [⟨cp, solReceived, 1, "EXTERNAL SELL (Axiom/Wallet)"⟩] }
      let ts2 := updateTrade ts1 Status.CLOSED pnl meta1
      ⟨{ s0 with ts := ts2 }, false, {}⟩
    else
      let pr := resolvePrice s0 i loopCount
      let s1 := afterPrice s0 pr
      match pr.price with
      | none => ⟨s1, true, { skipped := true, logs := pr.logs }⟩
      | some p => decisionCore entry trade s1 i p pr.logs

/-- The monitoring loop run over a list of per-cycle inputs: the `while`
condition re-checks membership in `active_monitors` before every
iteration, and a `break` ends the run. -/
def runCycles (entry : ℚ) : MonitorState → List CycleInput →
    MonitorState × List CycleEvents
  | s, [] => (s, [])
  | s, i :: rest =>
    if s.ts.activeMonitor = false then (s, [])
    else
      let r := monitorCycle entry s i
      if r.continueLoop then
        let rr := runCycles entry r.st rest
        (rr.1, r.events :: rr.2)
      else (r.st, [r.events])

/-- End-of-run cleanup (trader.py:655-657): `_cleanup_trade_attrs` deletes
`_loop_`, `_cached_data_` and `_tp_lock_` (but not `_last_valid_price_`
or `_price_fail_count_`), then the address leaves `active_monitors`. -/
def monitorFinish (s : MonitorState) : MonitorState :=
  { s with loopCount := 0, cachedDataPrice := none, tpLocks := {},
           ts := { s.ts with activeMonitor := false } }


/-! ### Helper lemmas about the sell executor and the cycle steps -/
theorem updateTrade_ledger (ts : TraderState) (st : Status) (pnl : ℚ) (m : Meta) :
    (updateTrade ts st pnl m).ledger = ts.ledger := by
  unfold updateTrade
  cases ts.trade <;> rfl

theorem updateTradeNoMeta_ledger (ts : TraderState) (st : Status) (pnl : ℚ) :
    (updateTradeNoMeta ts st pnl).ledger = ts.ledger := by
  unfold updateTradeNoMeta
  cases ts.trade <;> rfl

theorem sell_skip_cooldown (s : TraderState) (env : SellEnv) (now p pct : ℚ)
    (reason : String) (h : cooldownActive s now = true) :
    sell s env now p pct reason = (s, now) := by
  unfold sell
  simp [h]

theorem sell_skip_pending (s : TraderState) (env : SellEnv) (now p pct : ℚ)
    (reason : String) (h : cooldownActive s now = false) (h2 : s.pendingSell = true) :
    sell s env now p pct reason = (s, now) := by
  unfold sell
  simp [h, h2]

theorem sell_ledger_shape (s : TraderState) (env : SellEnv) (now p pct : ℚ)
    (reason : String) :
    (sell s env now p pct reason).1.ledger = s.ledger ∨
    ∃ pr rcv, (sell s env now p pct reason).1.ledger =
      s.ledger ++ [⟨pr, rcv, pct, reason⟩] := by
  unfold sell
  by_cases hcd : cooldownActive s now = true
  · simp [hcd]
  simp only [hcd, if_false, Bool.false_eq_true, if_neg]
  by_cases hp : s.pendingSell = true
  · simp [hp]
  simp only [hp, if_false, Bool.false_eq_true, if_neg]
  cases htr : s.trade with
  | none => simp [htr, release]
  | some trade =>
    simp only [htr]
    by_cases hup : (!env.realMode || trade.meta.isPaper) = true
    · simp only [hup, if_true, release, finishSell]
      by_cases hlt : pct < 1
      · simp [hlt]
      · simp [hlt]
    · simp only [hup, if_false, Bool.false_eq_true, if_neg]
      by_cases hbal : env.initialBalance ≤ 0
      · simp [hbal, release]
      simp only [hbal, if_false, if_neg, not_false_iff]
      by_cases hfail : (realSellLoop env).1 = false
      · simp [hfail, release]
      simp only [hfail, if_false, Bool.false_eq_true, if_neg]
      by_cases htx : (realSellLoop env).2 = true
      · simp only [htx, if_true, release, finishSell]
        by_cases hlt : pct < 1
        · simp [hlt]
        · simp [hlt]
      · simp only [htx, if_false, Bool.false_eq_true, if_neg, release, finishSell]
        by_cases hlt : pct < 1
        · simp [hlt]
        · simp [hlt]

theorem realSellLoop_fails (env : SellEnv)
    (h : ∀ k, k < 5 → 0 < env.attemptBalance k ∧ env.attemptTxSig k = false) :
    realSellLoop env = (false, false) := by
  have h0 := h 0 (by norm_num)
  have h1 := h 1 (by norm_num)
  have h2 := h 2 (by norm_num)
  have h3 := h 3 (by norm_num)
  have h4 := h 4 (by norm_num)
  unfold realSellLoop
  simp [realSellLoopGo, not_le.mpr h0.1, h0.2, not_le.mpr h1.1, h1.2,
        not_le.mpr h2.1, h2.2, not_le.mpr h3.1, h3.2, not_le.mpr h4.1, h4.2]

theorem sell_failed_real (s : TraderState) (env : SellEnv) (now p pct : ℚ)
    (reason : String) (tr : Trade)
    (hcd : cooldownActive s now = false) (hp : s.pendingSell = false)
    (htr : s.trade = some tr) (hpaper : tr.meta.isPaper = false)
    (hreal : env.realMode = true) (hbal : 0 < env.initialBalance)
    (hfail : ∀ k, k < 5 → 0 < env.attemptBalance k ∧ env.attemptTxSig k = false) :
    (sell s env now p pct reason).1.trade = s.trade ∧
    (sell s env now p pct reason).1.ledger = s.ledger ∧
    (sell s env now p pct reason).1.notifications =
      sellFailedMsg :: s.notifications ∧
    (sell s env now p pct reason).1.pendingSell = false := by
  unfold sell
  simp only [hcd, if_false, Bool.false_eq_true, if_neg, hp, htr]
  have hup : (!env.realMode || tr.meta.isPaper) = false := by
    simp [hreal, hpaper]
  simp only [hup, Bool.false_eq_true, if_false, if_neg, not_le.mpr hbal,
    realSellLoop_fails env hfail, release]
  simp

theorem sell_arms_cooldown (s : TraderState) (env : SellEnv) (now p pct : ℚ)
    (reason : String) (hcd : cooldownActive s now = false)
    (hp : s.pendingSell = false) :
    (sell s env now p pct reason).1.cooldownAt = some now := by
  unfold sell
  simp only [hcd, if_false, Bool.false_eq_true, if_neg, hp]
  cases htr : s.trade with
  | none => simp [htr, release]
  | some trade =>
    simp only [htr]
    by_cases hup : (!env.realMode || trade.meta.isPaper) = true
    · simp only [hup, if_true, release, finishSell]
      by_cases hlt : pct < 1 <;> simp [hlt]
    · simp only [hup, if_false, Bool.false_eq_true, if_neg]
      by_cases hbal : env.initialBalance ≤ 0
      · simp [hbal, release]
      simp only [hbal, if_false, if_neg, not_false_iff]
      by_cases hfail : (realSellLoop env).1 = false
      · simp [hfail, release]
      simp only [hfail, if_false, Bool.false_eq_true, if_neg]
      by_cases htx : (realSellLoop env).2 = true <;>
        · simp only [htx, if_true, if_false, Bool.false_eq_true, if_neg,
            release, finishSell]
          by_cases hlt : pct < 1 <;> simp [hlt]

-- ledger transport
theorem mcStep_ledger (c : ℚ) (m0 : Meta) (ts : TraderState) (st : Status)
    (pnl : ℚ) : (mcStep c m0 ts st pnl).2.ledger = ts.ledger := by
  unfold mcStep
  split <;> simp [updateTrade_ledger]

theorem beStep_ledger (e sl pnl : ℚ) (m : Meta) (ts : TraderState)
    (st : Status) : (beStep e sl pnl m ts st).2.2.ledger = ts.ledger := by
  unfold beStep
  split
  · split <;> simp [updateTrade_ledger]
  · rfl

theorem alertStep_ledger (e p pnl : ℚ) (m : Meta) (ts : TraderState)
    (st : Status) : (alertStep e p pnl m ts st).2.2.ledger = ts.ledger := by
  unfold alertStep
  split <;> dsimp only <;> split <;> simp [updateTrade_ledger]

-- stop-loss monotonicity pieces
theorem le_raiseTo (sl new : ℚ) : sl ≤ raiseTo sl new := by
  unfold raiseTo
  split <;> linarith

theorem beStep_sl (e sl pnl : ℚ) (m : Meta) (ts : TraderState) (st : Status) :
    sl ≤ (beStep e sl pnl m ts st).1 := by
  unfold beStep
  split
  · split
    · rename_i h; linarith
    · exact le_refl _
  · exact le_refl _

theorem tp1Step_sl (e p : ℚ) (t : TpState) :
    t.stopLoss ≤ (tp1Step e p t).stopLoss := by
  unfold tp1Step
  split
  · exact le_raiseTo _ _
  · exact le_refl _

theorem tp2Step_sl (e p : ℚ) (t : TpState) :
    t.stopLoss ≤ (tp2Step e p t).stopLoss := by
  unfold tp2Step
  split
  · exact le_raiseTo _ _
  · exact le_refl _

theorem tp3Step_sl (e p : ℚ) (t : TpState) :
    t.stopLoss ≤ (tp3Step e p t).stopLoss := by
  unfold tp3Step
  split
  · exact le_max_left _ _
  · exact le_refl _

-- meta-field preservation through the tier steps
theorem tp1Step_meta_locked (e p : ℚ) (t : TpState) :
    (tp1Step e p t).meta.breakEvenLocked = t.meta.breakEvenLocked := by
  unfold tp1Step
  split <;> rfl

theorem tp2Step_meta_locked (e p : ℚ) (t : TpState) :
    (tp2Step e p t).meta.breakEvenLocked = t.meta.breakEvenLocked := by
  unfold tp2Step
  split <;> rfl

theorem tp3Step_meta_locked (e p : ℚ) (t : TpState) :
    (tp3Step e p t).meta.breakEvenLocked = t.meta.breakEvenLocked := by
  unfold tp3Step
  split <;> rfl

theorem tp1Step_meta_legacy (e p : ℚ) (t : TpState) :
    (tp1Step e p t).meta.tp2HitLegacy = t.meta.tp2HitLegacy := by
  unfold tp1Step
  split <;> rfl

theorem tp2Step_meta_legacy (e p : ℚ) (t : TpState) :
    (tp2Step e p t).meta.tp2HitLegacy = t.meta.tp2HitLegacy := by
  unfold tp2Step
  split <;> rfl

theorem tp3Step_meta_legacy (e p : ℚ) (t : TpState) :
    (tp3Step e p t).meta.tp2HitLegacy = t.meta.tp2HitLegacy := by
  unfold tp3Step
  split <;> rfl

-- lock monotonicity through the tier steps
theorem tp1Step_lock2 (e p : ℚ) (t : TpState) (h : t.locks.lock2x = true) :
    (tp1Step e p t).locks.lock2x = true := by
  unfold tp1Step
  split <;> simp [h]

theorem tp1Step_lock3 (e p : ℚ) (t : TpState) :
    (tp1Step e p t).locks.lock3x = t.locks.lock3x := by
  unfold tp1Step
  split <;> rfl

theorem tp1Step_lock5 (e p : ℚ) (t : TpState) :
    (tp1Step e p t).locks.lock5x = t.locks.lock5x := by
  unfold tp1Step
  split <;> rfl

theorem tp2Step_lock2 (e p : ℚ) (t : TpState) :
    (tp2Step e p t).locks.lock2x = t.locks.lock2x := by
  unfold tp2Step
  split <;> rfl

theorem tp2Step_lock3 (e p : ℚ) (t : TpState) (h : t.locks.lock3x = true) :
    (tp2Step e p t).locks.lock3x = true := by
  unfold tp2Step
  split <;> simp [h]

theorem tp2Step_lock5 (e p : ℚ) (t : TpState) :
    (tp2Step e p t).locks.lock5x = t.locks.lock5x := by
  unfold tp2Step
  split <;> rfl

theorem tp3Step_lock2 (e p : ℚ) (t : TpState) :
    (tp3Step e p t).locks.lock2x = t.locks.lock2x := by
  unfold tp3Step
  split <;> rfl

theorem tp3Step_lock3 (e p : ℚ) (t : TpState) :
    (tp3Step e p t).locks.lock3x = t.locks.lock3x := by
  unfold tp3Step
  split <;> rfl

theorem tp3Step_lock5 (e p : ℚ) (t : TpState) (h : t.locks.lock5x = true) :
    (tp3Step e p t).locks.lock5x = true := by
  unfold tp3Step
  split <;> simp [h]

theorem mcStep_meta_locked (c : ℚ) (m0 : Meta) (ts : TraderState)
    (st : Status) (pnl : ℚ) :
    (mcStep c m0 ts st pnl).1.breakEvenLocked = m0.breakEvenLocked := by
  unfold mcStep
  split <;> rfl

theorem mcStep_meta_legacy (c : ℚ) (m0 : Meta) (ts : TraderState)
    (st : Status) (pnl : ℚ) :
    (mcStep c m0 ts st pnl).1.tp2HitLegacy = m0.tp2HitLegacy := by
  unfold mcStep
  split <;> rfl

theorem beStep_meta_legacy (e sl pnl : ℚ) (m : Meta) (ts : TraderState)
    (st : Status) :
    (beStep e sl pnl m ts st).2.1.tp2HitLegacy = m.tp2HitLegacy := by
  unfold beStep
  split
  · split <;> rfl
  · rfl

theorem alertStep_meta_legacy (e p pnl : ℚ) (m : Meta) (ts : TraderState)
    (st : Status) :
    (alertStep e p pnl m ts st).2.1.tp2HitLegacy = m.tp2HitLegacy := by
  unfold alertStep
  dsimp only
  split <;> split <;> rfl

theorem alertStep_meta_locked (e p pnl : ℚ) (m : Meta) (ts : TraderState)
    (st : Status) :
    (alertStep e p pnl m ts st).2.1.breakEvenLocked = m.breakEvenLocked := by
  unfold alertStep
  dsimp only
  split <;> split <;> rfl

/-- The `tp2_hit` legacy flag of the persisted row (false when no row). -/
def tp2LegacyOf (ts : TraderState) : Bool :=
  match ts.trade with
  | none => false
  | some tr => tr.meta.tp2HitLegacy

theorem updateTrade_trade (ts : TraderState) (st : Status) (pnl : ℚ)
    (m : Meta) :
    (updateTrade ts st pnl m).trade = ts.trade.map
      (fun tr => { tr with status := st, pnlPercent := pnl, meta := m }) := by
  unfold updateTrade
  cases h : ts.trade <;> simp [h]

theorem updateTradeNoMeta_trade (ts : TraderState) (st : Status) (pnl : ℚ) :
    (updateTradeNoMeta ts st pnl).trade = ts.trade.map
      (fun tr => { tr with status := st, pnlPercent := pnl }) := by
  unfold updateTradeNoMeta
  cases h : ts.trade <;> simp [h]

theorem tp2LegacyOf_updateTrade (ts : TraderState) (st : Status) (pnl : ℚ)
    (m : Meta) (tr : Trade) (h : ts.trade = some tr) :
    tp2LegacyOf (updateTrade ts st pnl m) = m.tp2HitLegacy := by
  unfold tp2LegacyOf updateTrade
  rw [h]

theorem tp2LegacyOf_updateTradeNoMeta (ts : TraderState) (st : Status)
    (pnl : ℚ) : tp2LegacyOf (updateTradeNoMeta ts st pnl) = tp2LegacyOf ts := by
  unfold tp2LegacyOf updateTradeNoMeta
  cases h : ts.trade <;> simp [h]

theorem updateTrade_isSome (ts : TraderState) (st : Status) (pnl : ℚ)
    (m : Meta) : (updateTrade ts st pnl m).trade.isSome = ts.trade.isSome := by
  rw [updateTrade_trade]
  cases ts.trade <;> rfl

/-- `sell` never rewrites the meta blob of the row: every status update it
performs re-uses the meta of the row it fetched (finishSell keeps
`trade.meta`). -/
theorem sell_metaOf (s : TraderState) (env : SellEnv) (now p pct : ℚ)
    (reason : String) :
    ((sell s env now p pct reason).1.trade).map Trade.meta =
      s.trade.map Trade.meta := by
  unfold sell
  by_cases hcd : cooldownActive s now = true
  · simp [hcd]
  simp only [hcd, if_false, Bool.false_eq_true, if_neg]
  by_cases hp : s.pendingSell = true
  · simp [hp]
  simp only [hp, if_false, Bool.false_eq_true, if_neg]
  cases htr : s.trade with
  | none => simp [htr, release]
  | some trade =>
    simp only [htr]
    by_cases hup : (!env.realMode || trade.meta.isPaper) = true
    · simp only [hup, if_true, release, finishSell]
      by_cases hlt : pct < 1 <;> simp [hlt]
    · simp only [hup, if_false, Bool.false_eq_true, if_neg]
      by_cases hbal : env.initialBalance ≤ 0
      · simp [hbal, release]
      simp only [hbal, if_false, if_neg, not_false_iff]
      by_cases hfail : (realSellLoop env).1 = false
      · simp [hfail, release]
      simp only [hfail, if_false, Bool.false_eq_true, if_neg]
      by_cases htx : (realSellLoop env).2 = true <;>
        · simp only [htx, if_true, if_false, Bool.false_eq_true, if_neg,
            release, finishSell]
          by_cases hlt : pct < 1 <;> simp [hlt]

theorem sell_tp2Legacy (s : TraderState) (env : SellEnv) (now p pct : ℚ)
    (reason : String) :
    tp2LegacyOf (sell s env now p pct reason).1 = tp2LegacyOf s := by
  have h := sell_metaOf s env now p pct reason
  unfold tp2LegacyOf
  cases h2 : (sell s env now p pct reason).1.trade with
  | none =>
    cases h3 : s.trade with
    | none => rfl
    | some tr => rw [h2, h3] at h; simp at h
  | some tr2 =>
    cases h3 : s.trade with
    | none => rw [h2, h3] at h; simp at h
    | some tr => rw [h2, h3] at h; simp at h; simp [h]

theorem sell_ledger_of_mem (s : TraderState) (env : SellEnv) (now p pct : ℚ)
    (reason : String) (hpct : pct ≤ 1) (r : SellRecord)
    (hr : r ∈ (sell s env now p pct reason).1.ledger) :
    r ∈ s.ledger ∨ r.percentageSold ≤ 1 := by
  rcases sell_ledger_shape s env now p pct reason with h | ⟨pr, rcv, h⟩
  · rw [h] at hr
    exact Or.inl hr
  · rw [h] at hr
    rcases List.mem_append.mp hr with h1 | h2
    · exact Or.inl h1
    · simp at h2
      subst h2
      exact Or.inr hpct

/-- The break-even flag of the persisted row (false when no row). -/
def lockedOf (ts : TraderState) : Bool :=
  match ts.trade with
  | none => false
  | some tr => tr.meta.breakEvenLocked

theorem lockedOf_updateTrade (ts : TraderState) (st : Status) (pnl : ℚ)
    (m : Meta) :
    lockedOf (updateTrade ts st pnl m) =
      if ts.trade.isSome then m.breakEvenLocked else false := by
  unfold lockedOf updateTrade
  cases h : ts.trade <;> simp [h]

theorem lockedOf_updateTradeNoMeta (ts : TraderState) (st : Status) (pnl : ℚ) :
    lockedOf (updateTradeNoMeta ts st pnl) = lockedOf ts := by
  unfold lockedOf updateTradeNoMeta
  cases h : ts.trade <;> simp [h]

theorem tp2LegacyOf_updateTrade' (ts : TraderState) (st : Status) (pnl : ℚ)
    (m : Meta) :
    tp2LegacyOf (updateTrade ts st pnl m) =
      if ts.trade.isSome then m.tp2HitLegacy else false := by
  unfold tp2LegacyOf updateTrade
  cases h : ts.trade <;> simp [h]

theorem sell_lockedOf (s : TraderState) (env : SellEnv) (now p pct : ℚ)
    (reason : String) :
    lockedOf (sell s env now p pct reason).1 = lockedOf s := by
  have h := sell_metaOf s env now p pct reason
  unfold lockedOf
  cases h2 : (sell s env now p pct reason).1.trade with
  | none =>
    cases h3 : s.trade with
    | none => rfl
    | some tr => rw [h2, h3] at h; simp at h
  | some tr2 =>
    cases h3 : s.trade with
    | none => rw [h2, h3] at h; simp at h
    | some tr => rw [h2, h3] at h; simp at h; simp [h]

theorem sell_trade_isSome (s : TraderState) (env : SellEnv) (now p pct : ℚ)
    (reason : String) :
    (sell s env now p pct reason).1.trade.isSome = s.trade.isSome := by
  have h := sell_metaOf s env now p pct reason
  cases h2 : (sell s env now p pct reason).1.trade with
  | none =>
    cases h3 : s.trade with
    | none => rfl
    | some tr => rw [h2, h3] at h; simp at h
  | some tr2 =>
    cases h3 : s.trade with
    | none => rw [h2, h3] at h; simp at h
    | some tr => rfl

theorem mcStep_isSome (c : ℚ) (m0 : Meta) (ts : TraderState) (st : Status)
    (pnl : ℚ) : (mcStep c m0 ts st pnl).2.trade.isSome = ts.trade.isSome := by
  unfold mcStep
  split <;> simp [updateTrade_isSome]

theorem beStep_isSome (e sl pnl : ℚ) (m : Meta) (ts : TraderState)
    (st : Status) :
    (beStep e sl pnl m ts st).2.2.trade.isSome = ts.trade.isSome := by
  unfold beStep
  split
  · split <;> simp [updateTrade_isSome]
  · rfl

theorem alertStep_isSome (e p pnl : ℚ) (m : Meta) (ts : TraderState)
    (st : Status) :
    (alertStep e p pnl m ts st).2.2.trade.isSome = ts.trade.isSome := by
  unfold alertStep
  dsimp only
  split <;> split <;> simp [updateTrade_isSome]

theorem mcStep_lockedOf (c : ℚ) (m0 : Meta) (ts : TraderState) (st : Status)
    (pnl : ℚ) (h : lockedOf ts = m0.breakEvenLocked) :
    lockedOf (mcStep c m0 ts st pnl).2 = m0.breakEvenLocked := by
  unfold mcStep
  split
  · rw [lockedOf_updateTrade]
    cases h3 : ts.trade with
    | none => unfold lockedOf at h; rw [h3] at h; simp [h3, ← h]
    | some tr => simp [h3]
  · exact h

theorem mcStep_legacyOf (c : ℚ) (m0 : Meta) (ts : TraderState) (st : Status)
    (pnl : ℚ) (h : tp2LegacyOf ts = m0.tp2HitLegacy) :
    tp2LegacyOf (mcStep c m0 ts st pnl).2 = m0.tp2HitLegacy := by
  unfold mcStep
  split
  · rw [tp2LegacyOf_updateTrade']
    cases h3 : ts.trade with
    | none => unfold tp2LegacyOf at h; rw [h3] at h; simp [h3, ← h]
    | some tr => simp [h3]
  · exact h

theorem beStep_legacyOf (e sl pnl : ℚ) (m : Meta) (ts : TraderState)
    (st : Status) (h : tp2LegacyOf ts = m.tp2HitLegacy) :
    tp2LegacyOf (beStep e sl pnl m ts st).2.2 = m.tp2HitLegacy := by
  unfold beStep
  split
  · split
    · rw [tp2LegacyOf_updateTrade']
      cases h3 : ts.trade with
      | none => unfold tp2LegacyOf at h; rw [h3] at h; simp [h3, ← h]
      | some tr => simp [h3]
    · exact h
  · exact h

theorem alertStep_legacyOf (e p pnl : ℚ) (m : Meta) (ts : TraderState)
    (st : Status) (h : tp2LegacyOf ts = m.tp2HitLegacy) :
    tp2LegacyOf (alertStep e p pnl m ts st).2.2 = m.tp2HitLegacy := by
  unfold alertStep
  dsimp only
  split <;> split
  all_goals try exact h
  all_goals
    rw [tp2LegacyOf_updateTrade']
    cases h3 : ts.trade with
    | none => unfold tp2LegacyOf at h; rw [h3] at h; simp [h3, ← h]
    | some tr => simp [h3]

theorem alertStep_lockedOf (e p pnl : ℚ) (m : Meta) (ts : TraderState)
    (st : Status) (h : lockedOf ts = m.breakEvenLocked) :
    lockedOf (alertStep e p pnl m ts st).2.2 = m.breakEvenLocked := by
  unfold alertStep
  dsimp only
  split <;> split
  all_goals try exact h
  all_goals
    rw [lockedOf_updateTrade]
    cases h3 : ts.trade with
    | none => unfold lockedOf at h; rw [h3] at h; simp [h3, ← h]
    | some tr => simp [h3]

theorem decisionCore_ledger (entry : ℚ) (trade : Trade) (s : MonitorState)
    (i : CycleInput) (p : ℚ) (logs0 : List String) (r : SellRecord)
    (hr : r ∈ (decisionCore entry trade s i p logs0).st.ts.ledger) :
    r ∈ s.ts.ledger ∨ r.percentageSold ≤ 1 := by
  unfold decisionCore at hr
  dsimp only at hr
  by_cases hman : trade.status = Status.SELL_REQUEST
  · simp only [if_pos hman] at hr
    exact sell_ledger_of_mem _ _ _ _ _ _ le_rfl r hr
  simp only [if_neg hman] at hr
  set pnl := (p - entry) / entry with hpnl
  set mcp := mcStep i.currentMc trade.meta s.ts trade.status pnl with hmc
  by_cases hz : i.timeHeldMins > 360 ∧ pnl < 0
  · simp only [if_pos hz] at hr
    rcases sell_ledger_of_mem _ _ _ _ _ _ le_rfl r hr with h | h
    · rw [mcStep_ledger] at h
      exact Or.inl h
    · exact Or.inr h
  simp only [if_neg hz] at hr
  set beR := beStep entry s.stopLossPrice pnl mcp.1 mcp.2 trade.status with hbe
  set highest := if p > s.highestPrice then p else s.highestPrice with hhi
  set sl2 := if pnl ≥ 1/2 then raiseTo beR.1 (highest * (65/100)) else beR.1
    with hsl2
  set t3 := tp3Step entry p (tp2Step entry p
    (tp1Step entry p ⟨0, [], sl2, beR.2.1, s.tpLocks, false⟩)) with ht3
  set aR := alertStep entry p pnl t3.meta beR.2.2 trade.status with har
  have hled2 : beR.2.2.ledger = s.ts.ledger := by
    rw [hbe, beStep_ledger, hmc, mcStep_ledger]
  have hled3 : aR.2.2.ledger = s.ts.ledger := by
    rw [har, alertStep_ledger, hled2]
  by_cases hbd : t3.totalSellPct > 0
  · simp only [if_pos hbd] at hr
    rw [updateTrade_ledger] at hr
    rcases sell_ledger_of_mem _ _ _ _ _ _ (min_le_right _ 1) r hr with h | h
    · rw [hled3] at h
      exact Or.inl h
    · exact Or.inr h
  simp only [if_neg hbd] at hr
  by_cases htrg : t3.triggered = true
  · simp only [if_pos htrg] at hr
    by_cases hdc : (¬aR.2.1.volumeDecayTriggered = true ∧ pnl > 1/5) ∧
        ((if i.buys5m + i.sells5m > aR.2.1.peakVolume then i.buys5m + i.sells5m
          else aR.2.1.peakVolume) > 50 ∧
         i.buys5m + i.sells5m <
          (if i.buys5m + i.sells5m > aR.2.1.peakVolume then i.buys5m + i.sells5m
           else aR.2.1.peakVolume) * (1/2))
    · simp only [if_pos hdc] at hr
      rw [updateTrade_ledger] at hr
      rcases sell_ledger_of_mem _ _ _ _ _ _ (by norm_num) r hr with h | h
      · rw [updateTrade_ledger, hled3] at h
        exact Or.inl h
      · exact Or.inr h
    · simp only [if_neg hdc] at hr
      by_cases hsl : p ≤ (if beR.2.1.tp4Hit ∨ trade.meta.clipCount ≥ 3 then
          raiseTo t3.stopLoss (highest * (1 - TRAILING_STOP_PERCENT))
        else t3.stopLoss)
      · simp only [if_pos hsl] at hr
        rcases sell_ledger_of_mem _ _ _ _ _ _ le_rfl r hr with h | h
        · rw [updateTrade_ledger, hled3] at h
          exact Or.inl h
        · exact Or.inr h
      · simp only [if_neg hsl] at hr
        by_cases hdr : |pnl - trade.pnlPercent| > 1/100
        · simp only [if_pos hdr] at hr
          rw [updateTradeNoMeta_ledger, updateTrade_ledger, hled3] at hr
          exact Or.inl hr
        · simp only [if_neg hdr] at hr
          rw [updateTrade_ledger, hled3] at hr
          exact Or.inl hr
  · simp only [if_neg htrg] at hr
    by_cases hdc : (¬aR.2.1.volumeDecayTriggered = true ∧ pnl > 1/5) ∧
        ((if i.buys5m + i.sells5m > aR.2.1.peakVolume then i.buys5m + i.sells5m
          else aR.2.1.peakVolume) > 50 ∧
         i.buys5m + i.sells5m <
          (if i.buys5m + i.sells5m > aR.2.1.peakVolume then i.buys5m + i.sells5m
           else aR.2.1.peakVolume) * (1/2))
    · simp only [if_pos hdc] at hr
      rw [updateTrade_ledger] at hr
      rcases sell_ledger_of_mem _ _ _ _ _ _ (by norm_num) r hr with h | h
      · rw [hled3] at h
        exact Or.inl h
      · exact Or.inr h
    · simp only [if_neg hdc] at hr
      by_cases hsl : p ≤ (if beR.2.1.tp4Hit ∨ trade.meta.clipCount ≥ 3 then
          raiseTo t3.stopLoss (highest * (1 - TRAILING_STOP_PERCENT))
        else t3.stopLoss)
      · simp only [if_pos hsl] at hr
        rcases sell_ledger_of_mem _ _ _ _ _ _ le_rfl r hr with h | h
        · rw [hled3] at h
          exact Or.inl h
        · exact Or.inr h
      · simp only [if_neg hsl] at hr
        by_cases hdr : |pnl - trade.pnlPercent| > 1/100
        · simp only [if_pos hdr] at hr
          rw [updateTradeNoMeta_ledger, hled3] at hr
          exact Or.inl hr
        · simp only [if_neg hdr] at hr
          rw [hled3] at hr
          exact Or.inl hr

theorem le_ite_raiseTo (c : Prop) [Decidable c] (sl x : ℚ) :
    sl ≤ if c then raiseTo sl x else sl := by
  split
  · exact le_raiseTo _ _
  · exact le_refl _

theorem decisionCore_sl (entry : ℚ) (trade : Trade) (s : MonitorState)
    (i : CycleInput) (p : ℚ) (logs0 : List String) :
    s.stopLossPrice ≤ (decisionCore entry trade s i p logs0).st.stopLossPrice := by
  unfold decisionCore
  dsimp only
  by_cases hman : trade.status = Status.SELL_REQUEST
  · simp only [if_pos hman]
    exact le_refl _
  simp only [if_neg hman]
  set pnl := (p - entry) / entry with hpnl
  set mcp := mcStep i.currentMc trade.meta s.ts trade.status pnl with hmc
  by_cases hz : i.timeHeldMins > 360 ∧ pnl < 0
  · simp only [if_pos hz]
    exact le_refl _
  simp only [if_neg hz]
  set beR := beStep entry s.stopLossPrice pnl mcp.1 mcp.2 trade.status with hbe
  set highest := if p > s.highestPrice then p else s.highestPrice with hhi
  set sl2 := if pnl ≥ 1/2 then raiseTo beR.1 (highest * (65/100)) else beR.1
    with hsl2
  set t3 := tp3Step entry p (tp2Step entry p
    (tp1Step entry p ⟨0, [], sl2, beR.2.1, s.tpLocks, false⟩)) with ht3
  set aR := alertStep entry p pnl t3.meta beR.2.2 trade.status with har
  have h1 : s.stopLossPrice ≤ beR.1 := by
    rw [hbe]
    exact beStep_sl _ _ _ _ _ _
  have h2 : beR.1 ≤ sl2 := by
    rw [hsl2]
    exact le_ite_raiseTo _ _ _
  have h3 : sl2 ≤ t3.stopLoss := by
    rw [ht3]
    calc sl2 = (⟨0, [], sl2, beR.2.1, s.tpLocks, false⟩ : TpState).stopLoss := rfl
    _ ≤ (tp1Step entry p ⟨0, [], sl2, beR.2.1, s.tpLocks, false⟩).stopLoss :=
        tp1Step_sl _ _ _
    _ ≤ (tp2Step entry p (tp1Step entry p
          ⟨0, [], sl2, beR.2.1, s.tpLocks, false⟩)).stopLoss := tp2Step_sl _ _ _
    _ ≤ _ := tp3Step_sl _ _ _
  have h4 : t3.stopLoss ≤ (if beR.2.1.tp4Hit ∨ trade.meta.clipCount ≥ 3 then
      raiseTo t3.stopLoss (highest * (1 - TRAILING_STOP_PERCENT))
    else t3.stopLoss) := le_ite_raiseTo _ _ _
  by_cases hbd : t3.totalSellPct > 0
  · simp only [if_pos hbd]
    linarith
  simp only [if_neg hbd]
  by_cases hdc : (¬aR.2.1.volumeDecayTriggered = true ∧ pnl > 1/5) ∧
      ((if i.buys5m + i.sells5m > aR.2.1.peakVolume then i.buys5m + i.sells5m
        else aR.2.1.peakVolume) > 50 ∧
       i.buys5m + i.sells5m <
        (if i.buys5m + i.sells5m > aR.2.1.peakVolume then i.buys5m + i.sells5m
         else aR.2.1.peakVolume) * (1/2))
  · simp only [if_pos hdc]
    linarith
  simp only [if_neg hdc]
  by_cases hsl : p ≤ (if beR.2.1.tp4Hit ∨ trade.meta.clipCount ≥ 3 then
      raiseTo t3.stopLoss (highest * (1 - TRAILING_STOP_PERCENT))
    else t3.stopLoss)
  · simp only [if_pos hsl]
    linarith
  · simp only [if_neg hsl]
    linarith

theorem decisionCore_events (entry : ℚ) (trade : Trade) (s : MonitorState)
    (i : CycleInput) (p : ℚ) (logs0 : List String) :
    (decisionCore entry trade s i p logs0).events.sellCalls.length ≤ 1 ∧
    (∀ b, (decisionCore entry trade s i p logs0).events.bundle = some b →
      (decisionCore entry trade s i p logs0).events.sellCalls =
        [(min b.1 1, String.intercalate " + " b.2)]) := by
  unfold decisionCore
  dsimp only
  by_cases hman : trade.status = Status.SELL_REQUEST
  · simp only [if_pos hman]
    exact ⟨by norm_num, by intro b hb; simp at hb⟩
  simp only [if_neg hman]
  set pnl := (p - entry) / entry with hpnl
  set mcp := mcStep i.currentMc trade.meta s.ts trade.status pnl with hmc
  by_cases hz : i.timeHeldMins > 360 ∧ pnl < 0
  · simp only [if_pos hz]
    exact ⟨by norm_num, by intro b hb; simp at hb⟩
  simp only [if_neg hz]
  set beR := beStep entry s.stopLossPrice pnl mcp.1 mcp.2 trade.status with hbe
  set highest := if p > s.highestPrice then p else s.highestPrice with hhi
  set sl2 := if pnl ≥ 1/2 then raiseTo beR.1 (highest * (65/100)) else beR.1
    with hsl2
  set t3 := tp3Step entry p (tp2Step entry p
    (tp1Step entry p ⟨0, [], sl2, beR.2.1, s.tpLocks, false⟩)) with ht3
  set aR := alertStep entry p pnl t3.meta beR.2.2 trade.status with har
  by_cases hbd : t3.totalSellPct > 0
  · simp only [if_pos hbd]
    refine ⟨by norm_num, ?_⟩
    intro b hb
    simp only [Option.some_inj] at hb
    subst hb
    rfl
  simp only [if_neg hbd]
  by_cases hdc : (¬aR.2.1.volumeDecayTriggered = true ∧ pnl > 1/5) ∧
      ((if i.buys5m + i.sells5m > aR.2.1.peakVolume then i.buys5m + i.sells5m
        else aR.2.1.peakVolume) > 50 ∧
       i.buys5m + i.sells5m <
        (if i.buys5m + i.sells5m > aR.2.1.peakVolume then i.buys5m + i.sells5m
         else aR.2.1.peakVolume) * (1/2))
  · simp only [if_pos hdc]
    exact ⟨by norm_num, by intro b hb; simp at hb⟩
  simp only [if_neg hdc]
  by_cases hsl : p ≤ (if beR.2.1.tp4Hit ∨ trade.meta.clipCount ≥ 3 then
      raiseTo t3.stopLoss (highest * (1 - TRAILING_STOP_PERCENT))
    else t3.stopLoss)
  · simp only [if_pos hsl]
    exact ⟨by norm_num, by intro b hb; simp at hb⟩
  · simp only [if_neg hsl]
    exact ⟨by norm_num, by intro b hb; simp at hb⟩

theorem decisionCore_locks (entry : ℚ) (trade : Trade) (s : MonitorState)
    (i : CycleInput) (p : ℚ) (logs0 : List String) :
    (s.tpLocks.lock2x = true →
      (decisionCore entry trade s i p logs0).st.tpLocks.lock2x = true) ∧
    (s.tpLocks.lock3x = true →
      (decisionCore entry trade s i p logs0).st.tpLocks.lock3x = true) ∧
    (s.tpLocks.lock5x = true →
      (decisionCore entry trade s i p logs0).st.tpLocks.lock5x = true) := by
  unfold decisionCore
  dsimp only
  by_cases hman : trade.status = Status.SELL_REQUEST
  · simp only [if_pos hman]
    exact ⟨fun h => h, fun h => h, fun h => h⟩
  simp only [if_neg hman]
  set pnl := (p - entry) / entry with hpnl
  set mcp := mcStep i.currentMc trade.meta s.ts trade.status pnl with hmc
  by_cases hz : i.timeHeldMins > 360 ∧ pnl < 0
  · simp only [if_pos hz]
    exact ⟨fun h => h, fun h => h, fun h => h⟩
  simp only [if_neg hz]
  set beR := beStep entry s.stopLossPrice pnl mcp.1 mcp.2 trade.status with hbe
  set highest := if p > s.highestPrice then p else s.highestPrice with hhi
  set sl2 := if pnl ≥ 1/2 then raiseTo beR.1 (highest * (65/100)) else beR.1
    with hsl2
  set t0 : TpState := ⟨0, [], sl2, beR.2.1, s.tpLocks, false⟩ with ht0
  set t3 := tp3Step entry p (tp2Step entry p (tp1Step entry p t0)) with ht3
  set aR := alertStep entry p pnl t3.meta beR.2.2 trade.status with har
  have hl2 : s.tpLocks.lock2x = true → t3.locks.lock2x = true := by
    intro h
    rw [ht3, tp3Step_lock2, tp2Step_lock2]
    exact tp1Step_lock2 _ _ _ h
  have hl3 : s.tpLocks.lock3x = true → t3.locks.lock3x = true := by
    intro h
    rw [ht3, tp3Step_lock3]
    apply tp2Step_lock3
    rw [tp1Step_lock3]
    exact h
  have hl5 : s.tpLocks.lock5x = true → t3.locks.lock5x = true := by
    intro h
    rw [ht3]
    apply tp3Step_lock5
    rw [tp2Step_lock5, tp1Step_lock5]
    exact h
  by_cases hbd : t3.totalSellPct > 0
  · simp only [if_pos hbd]
    exact ⟨hl2, hl3, hl5⟩
  simp only [if_neg hbd]
  by_cases hdc : (¬aR.2.1.volumeDecayTriggered = true ∧ pnl > 1/5) ∧
      ((if i.buys5m + i.sells5m > aR.2.1.peakVolume then i.buys5m + i.sells5m
        else aR.2.1.peakVolume) > 50 ∧
       i.buys5m + i.sells5m <
        (if i.buys5m + i.sells5m > aR.2.1.peakVolume then i.buys5m + i.sells5m
         else aR.2.1.peakVolume) * (1/2))
  · simp only [if_pos hdc]
    exact ⟨hl2, hl3, hl5⟩
  simp only [if_neg hdc]
  by_cases hsl : p ≤ (if beR.2.1.tp4Hit ∨ trade.meta.clipCount ≥ 3 then
      raiseTo t3.stopLoss (highest * (1 - TRAILING_STOP_PERCENT))
    else t3.stopLoss)
  · simp only [if_pos hsl]
    exact ⟨hl2, hl3, hl5⟩
  · simp only [if_neg hsl]
    exact ⟨hl2, hl3, hl5⟩

theorem decisionCore_legacy (entry : ℚ) (trade : Trade) (s : MonitorState)
    (i : CycleInput) (p : ℚ) (logs0 : List String)
    (htr : s.ts.trade = some trade) :
    tp2LegacyOf (decisionCore entry trade s i p logs0).st.ts =
      tp2LegacyOf s.ts := by
  have hleg0 : tp2LegacyOf s.ts = trade.meta.tp2HitLegacy := by
    unfold tp2LegacyOf
    rw [htr]
  have hsome0 : s.ts.trade.isSome = true := by rw [htr]; rfl
  unfold decisionCore
  dsimp only
  by_cases hman : trade.status = Status.SELL_REQUEST
  · simp only [if_pos hman]
    exact sell_tp2Legacy _ _ _ _ _ _
  simp only [if_neg hman]
  set pnl := (p - entry) / entry with hpnl
  set mcp := mcStep i.currentMc trade.meta s.ts trade.status pnl with hmc
  have hmcl : mcp.1.tp2HitLegacy = trade.meta.tp2HitLegacy := by
    rw [hmc]
    exact mcStep_meta_legacy _ _ _ _ _
  have hleg1 : tp2LegacyOf mcp.2 = trade.meta.tp2HitLegacy := by
    rw [hmc]
    exact mcStep_legacyOf _ _ _ _ _ hleg0
  have hsome1 : mcp.2.trade.isSome = true := by
    rw [hmc, mcStep_isSome]
    exact hsome0
  by_cases hz : i.timeHeldMins > 360 ∧ pnl < 0
  · simp only [if_pos hz]
    rw [sell_tp2Legacy, hleg1, hleg0]
  simp only [if_neg hz]
  set beR := beStep entry s.stopLossPrice pnl mcp.1 mcp.2 trade.status with hbe
  have hbel : beR.2.1.tp2HitLegacy = trade.meta.tp2HitLegacy := by
    rw [hbe, beStep_meta_legacy]
    exact hmcl
  have hleg2 : tp2LegacyOf beR.2.2 = trade.meta.tp2HitLegacy := by
    rw [hbe]
    rw [beStep_legacyOf _ _ _ _ _ _ (by rw [hleg1, hmcl])]
    exact hmcl
  have hsome2 : beR.2.2.trade.isSome = true := by
    rw [hbe, beStep_isSome]
    exact hsome1
  set highest := if p > s.highestPrice then p else s.highestPrice with hhi
  set sl2 := if pnl ≥ 1/2 then raiseTo beR.1 (highest * (65/100)) else beR.1
    with hsl2
  set t0 : TpState := ⟨0, [], sl2, beR.2.1, s.tpLocks, false⟩ with ht0
  set t3 := tp3Step entry p (tp2Step entry p (tp1Step entry p t0)) with ht3
  have ht3l : t3.meta.tp2HitLegacy = trade.meta.tp2HitLegacy := by
    rw [ht3, tp3Step_meta_legacy, tp2Step_meta_legacy, tp1Step_meta_legacy]
    exact hbel
  set aR := alertStep entry p pnl t3.meta beR.2.2 trade.status with har
  have harl : aR.2.1.tp2HitLegacy = trade.meta.tp2HitLegacy := by
    rw [har, alertStep_meta_legacy]
    exact ht3l
  have hleg3 : tp2LegacyOf aR.2.2 = trade.meta.tp2HitLegacy := by
    rw [har]
    rw [alertStep_legacyOf _ _ _ _ _ _ (by rw [hleg2, ht3l])]
    exact ht3l
  have hsome3 : aR.2.2.trade.isSome = true := by
    rw [har, alertStep_isSome]
    exact hsome2
  by_cases hbd : t3.totalSellPct > 0
  · simp only [if_pos hbd]
    rw [tp2LegacyOf_updateTrade', sell_trade_isSome, hsome3, if_pos rfl, harl,
      hleg0]
  simp only [if_neg hbd]
  set ts4 := if t3.triggered = true then
      updateTrade aR.2.2 trade.status pnl aR.2.1
    else aR.2.2 with hts4
  have hleg4 : tp2LegacyOf ts4 = trade.meta.tp2HitLegacy := by
    rw [hts4]
    split
    · rw [tp2LegacyOf_updateTrade', hsome3, if_pos rfl, harl]
    · exact hleg3
  have hsome4 : ts4.trade.isSome = true := by
    rw [hts4]
    split
    · rw [updateTrade_isSome]
      exact hsome3
    · exact hsome3
  by_cases hdc : (¬aR.2.1.volumeDecayTriggered = true ∧ pnl > 1/5) ∧
      ((if i.buys5m + i.sells5m > aR.2.1.peakVolume then i.buys5m + i.sells5m
        else aR.2.1.peakVolume) > 50 ∧
       i.buys5m + i.sells5m <
        (if i.buys5m + i.sells5m > aR.2.1.peakVolume then i.buys5m + i.sells5m
         else aR.2.1.peakVolume) * (1/2))
  · simp only [if_pos hdc]
    rw [tp2LegacyOf_updateTrade', sell_trade_isSome, hsome4, if_pos rfl]
    have hm5 : (if i.buys5m + i.sells5m > aR.2.1.peakVolume then
        { aR.2.1 with peakVolume := i.buys5m + i.sells5m }
      else aR.2.1).tp2HitLegacy = aR.2.1.tp2HitLegacy := by
      split <;> rfl
    rw [hleg0]
    simpa [hm5] using harl
  simp only [if_neg hdc]
  by_cases hsl : p ≤ (if beR.2.1.tp4Hit ∨ trade.meta.clipCount ≥ 3 then
      raiseTo t3.stopLoss (highest * (1 - TRAILING_STOP_PERCENT))
    else t3.stopLoss)
  · simp only [if_pos hsl]
    rw [sell_tp2Legacy, hleg4, hleg0]
  · simp only [if_neg hsl]
    split
    · rw [tp2LegacyOf_updateTradeNoMeta, hleg4, hleg0]
    · rw [hleg4, hleg0]

theorem decisionCore_beInv (entry : ℚ) (trade : Trade) (s : MonitorState)
    (i : CycleInput) (p : ℚ) (logs0 : List String)
    (htr : s.ts.trade = some trade)
    (hinv : lockedOf s.ts = true → entry ≤ s.stopLossPrice) :
    lockedOf (decisionCore entry trade s i p logs0).st.ts = true →
      entry ≤ (decisionCore entry trade s i p logs0).st.stopLossPrice := by
  have hlk0 : lockedOf s.ts = trade.meta.breakEvenLocked := by
    unfold lockedOf
    rw [htr]
  have hsome0 : s.ts.trade.isSome = true := by rw [htr]; rfl
  unfold decisionCore
  dsimp only
  by_cases hman : trade.status = Status.SELL_REQUEST
  · simp only [if_pos hman]
    intro h
    rw [sell_lockedOf] at h
    exact hinv h
  simp only [if_neg hman]
  set pnl := (p - entry) / entry with hpnl
  set mcp := mcStep i.currentMc trade.meta s.ts trade.status pnl with hmc
  have hmclk : mcp.1.breakEvenLocked = trade.meta.breakEvenLocked := by
    rw [hmc]
    exact mcStep_meta_locked _ _ _ _ _
  have hlk1 : lockedOf mcp.2 = trade.meta.breakEvenLocked := by
    rw [hmc]
    exact mcStep_lockedOf _ _ _ _ _ hlk0
  have hsome1 : mcp.2.trade.isSome = true := by
    rw [hmc, mcStep_isSome]
    exact hsome0
  by_cases hz : i.timeHeldMins > 360 ∧ pnl < 0
  · simp only [if_pos hz]
    intro h
    rw [sell_lockedOf, hlk1, ← hlk0] at h
    exact hinv h
  simp only [if_neg hz]
  set beR := beStep entry s.stopLossPrice pnl mcp.1 mcp.2 trade.status with hbe
  have hS : entry ≤ beR.1 ∨
      (beR.2.1.breakEvenLocked = trade.meta.breakEvenLocked ∧
       beR.1 = s.stopLossPrice ∧
       lockedOf beR.2.2 = trade.meta.breakEvenLocked ∧
       s.stopLossPrice ≤ beR.1) := by
    by_cases hbe1 : pnl ≥ 1/2 ∧ ¬mcp.1.breakEvenLocked = true
    · by_cases hbe2 : entry > s.stopLossPrice
      · left
        have h : beR.1 = entry := by
          rw [hbe]
          unfold beStep
          rw [if_pos hbe1, if_pos hbe2]
        rw [h]
      · right
        have h : beR = (s.stopLossPrice, mcp.1, mcp.2) := by
          rw [hbe]
          unfold beStep
          rw [if_pos hbe1, if_neg hbe2]
        rw [h]
        exact ⟨hmclk, rfl, hlk1, le_refl _⟩
    · right
      have h : beR = (s.stopLossPrice, mcp.1, mcp.2) := by
        rw [hbe]
        unfold beStep
        rw [if_neg hbe1]
      rw [h]
      exact ⟨hmclk, rfl, hlk1, le_refl _⟩
  have hsome2 : beR.2.2.trade.isSome = true := by
    rw [hbe, beStep_isSome]
    exact hsome1
  set highest := if p > s.highestPrice then p else s.highestPrice with hhi
  set sl2 := if pnl ≥ 1/2 then raiseTo beR.1 (highest * (65/100)) else beR.1
    with hsl2
  set t0 : TpState := ⟨0, [], sl2, beR.2.1, s.tpLocks, false⟩ with ht0
  set t3 := tp3Step entry p (tp2Step entry p (tp1Step entry p t0)) with ht3
  have ht3lk : t3.meta.breakEvenLocked = beR.2.1.breakEvenLocked := by
    rw [ht3, tp3Step_meta_locked, tp2Step_meta_locked, tp1Step_meta_locked]
  set aR := alertStep entry p pnl t3.meta beR.2.2 trade.status with har
  have harlk : aR.2.1.breakEvenLocked = t3.meta.breakEvenLocked := by
    rw [har]
    exact alertStep_meta_locked _ _ _ _ _ _
  have hsome3 : aR.2.2.trade.isSome = true := by
    rw [har, alertStep_isSome]
    exact hsome2
  have h2 : beR.1 ≤ sl2 := by
    rw [hsl2]
    exact le_ite_raiseTo _ _ _
  have h3 : sl2 ≤ t3.stopLoss := by
    rw [ht3]
    calc sl2 = t0.stopLoss := by rw [ht0]
    _ ≤ (tp1Step entry p t0).stopLoss := tp1Step_sl _ _ _
    _ ≤ (tp2Step entry p (tp1Step entry p t0)).stopLoss := tp2Step_sl _ _ _
    _ ≤ _ := tp3Step_sl _ _ _
  have h4 : t3.stopLoss ≤ (if beR.2.1.tp4Hit ∨ trade.meta.clipCount ≥ 3 then
      raiseTo t3.stopLoss (highest * (1 - TRAILING_STOP_PERCENT))
    else t3.stopLoss) := le_ite_raiseTo _ _ _
  -- per-leaf facts when the break-even branch did not fire
  have hlkA : beR.2.1.breakEvenLocked = trade.meta.breakEvenLocked →
      lockedOf beR.2.2 = trade.meta.breakEvenLocked →
      lockedOf aR.2.2 = trade.meta.breakEvenLocked := by
    intro e1 e3
    rw [har]
    rw [alertStep_lockedOf _ _ _ _ _ _ (by rw [e3, ht3lk, e1]), ht3lk, e1]
  by_cases hbd : t3.totalSellPct > 0
  · simp only [if_pos hbd]
    rcases hS with hL | ⟨e1, e2, e3, _⟩
    · intro _
      linarith
    · intro h
      rw [lockedOf_updateTrade, sell_trade_isSome, hsome3, if_pos rfl, harlk,
        ht3lk, e1, ← hlk0] at h
      have := hinv h
      rw [e2] at h2
      linarith
  simp only [if_neg hbd]
  set ts4 := if t3.triggered = true then
      updateTrade aR.2.2 trade.status pnl aR.2.1
    else aR.2.2 with hts4
  have hsome4 : ts4.trade.isSome = true := by
    rw [hts4]
    split
    · rw [updateTrade_isSome]
      exact hsome3
    · exact hsome3
  have hlk4 : beR.2.1.breakEvenLocked = trade.meta.breakEvenLocked →
      lockedOf beR.2.2 = trade.meta.breakEvenLocked →
      lockedOf ts4 = trade.meta.breakEvenLocked := by
    intro e1 e3
    rw [hts4]
    split
    · rw [lockedOf_updateTrade, hsome3, if_pos rfl, harlk, ht3lk, e1]
    · exact hlkA e1 e3
  by_cases hdc : (¬aR.2.1.volumeDecayTriggered = true ∧ pnl > 1/5) ∧
      ((if i.buys5m + i.sells5m > aR.2.1.peakVolume then i.buys5m + i.sells5m
        else aR.2.1.peakVolume) > 50 ∧
       i.buys5m + i.sells5m <
        (if i.buys5m + i.sells5m > aR.2.1.peakVolume then i.buys5m + i.sells5m
         else aR.2.1.peakVolume) * (1/2))
  · simp only [if_pos hdc]
    rcases hS with hL | ⟨e1, e2, e3, _⟩
    · intro _
      linarith
    · intro h
      have hm5 : (if i.buys5m + i.sells5m > aR.2.1.peakVolume then
          { aR.2.1 with peakVolume := i.buys5m + i.sells5m }
        else aR.2.1).breakEvenLocked = aR.2.1.breakEvenLocked := by
        split <;> rfl
      rw [lockedOf_updateTrade, sell_trade_isSome, hsome4, if_pos rfl] at h
      simp only [hm5] at h
      rw [harlk, ht3lk, e1, ← hlk0] at h
      have := hinv h
      rw [e2] at h2
      linarith
  simp only [if_neg hdc]
  by_cases hsl : p ≤ (if beR.2.1.tp4Hit ∨ trade.meta.clipCount ≥ 3 then
      raiseTo t3.stopLoss (highest * (1 - TRAILING_STOP_PERCENT))
    else t3.stopLoss)
  · simp only [if_pos hsl]
    rcases hS with hL | ⟨e1, e2, e3, _⟩
    · intro _
      linarith
    · intro h
      rw [sell_lockedOf, hlk4 e1 e3, ← hlk0] at h
      have := hinv h
      rw [e2] at h2
      linarith
  · simp only [if_neg hsl]
    rcases hS with hL | ⟨e1, e2, e3, _⟩
    · intro _
      linarith
    · intro h
      have hlk5 : lockedOf (if |pnl - trade.pnlPercent| > 1/100 then
          updateTradeNoMeta ts4 trade.status pnl else ts4) =
          lockedOf ts4 := by
        split
        · rw [lockedOf_updateTradeNoMeta]
        · rfl
      rw [hlk5, hlk4 e1 e3, ← hlk0] at h
      have := hinv h
      rw [e2] at h2
      linarith

theorem monitorCycle_sl (entry : ℚ) (s : MonitorState) (i : CycleInput) :
    s.stopLossPrice ≤ (monitorCycle entry s i).st.stopLossPrice := by
  unfold monitorCycle
  dsimp only
  cases htr : s.ts.trade with
  | none => simp only [htr]; exact le_refl _
  | some trade =>
    simp only [htr]
    by_cases hcl : trade.status = Status.CLOSED
    · simp only [if_pos hcl]
      exact le_refl _
    simp only [if_neg hcl]
    by_cases hext : (s.loopCount + 1) % 60 = 0 ∧ i.sellEnv.realMode = true ∧
        i.tokenBalance ≤ 0
    · simp only [if_pos hext]
      exact le_refl _
    simp only [if_neg hext]
    cases hpr : (resolvePrice { s with loopCount := s.loopCount + 1 } i
        (s.loopCount + 1)).price with
    | none => simp only [hpr]; exact le_refl _
    | some p =>
      simp only [hpr]
      exact decisionCore_sl entry trade (afterPrice { s with loopCount := s.loopCount + 1 }
        (resolvePrice { s with loopCount := s.loopCount + 1 } i
          (s.loopCount + 1))) i p (resolvePrice { s with loopCount := s.loopCount + 1 } i
        (s.loopCount + 1)).logs

theorem monitorCycle_ledger (entry : ℚ) (s : MonitorState) (i : CycleInput)
    (r : SellRecord) (hr : r ∈ (monitorCycle entry s i).st.ts.ledger) :
    r ∈ s.ts.ledger ∨ r.percentageSold ≤ 1 := by
  unfold monitorCycle at hr
  dsimp only at hr
  cases htr : s.ts.trade with
  | none => simp only [htr] at hr; exact Or.inl hr
  | some trade =>
    simp only [htr] at hr
    by_cases hcl : trade.status = Status.CLOSED
    · simp only [if_pos hcl] at hr
      exact Or.inl hr
    simp only [if_neg hcl] at hr
    by_cases hext : (s.loopCount + 1) % 60 = 0 ∧ i.sellEnv.realMode = true ∧
        i.tokenBalance ≤ 0
    · simp only [if_pos hext] at hr
      rw [updateTrade_ledger] at hr
      rcases List.mem_append.mp hr with h1 | h2
      · exact Or.inl h1
      · simp at h2
        subst h2
        exact Or.inr le_rfl
    simp only [if_neg hext] at hr
    cases hpr : (resolvePrice { s with loopCount := s.loopCount + 1 } i
        (s.loopCount + 1)).price with
    | none => simp only [hpr] at hr; exact Or.inl hr
    | some p =>
      simp only [hpr] at hr
      have h2 := decisionCore_ledger entry trade (afterPrice { s with loopCount := s.loopCount + 1 }
        (resolvePrice { s with loopCount := s.loopCount + 1 } i
          (s.loopCount + 1))) i p (resolvePrice { s with loopCount := s.loopCount + 1 } i
        (s.loopCount + 1)).logs r hr
      exact h2

theorem monitorCycle_beInv (entry : ℚ) (s : MonitorState) (i : CycleInput)
    (hinv : lockedOf s.ts = true → entry ≤ s.stopLossPrice) :
    lockedOf (monitorCycle entry s i).st.ts = true →
      entry ≤ (monitorCycle entry s i).st.stopLossPrice := by
  unfold monitorCycle
  dsimp only
  cases htr : s.ts.trade with
  | none => simp only [htr]; exact hinv
  | some trade =>
    simp only [htr]
    by_cases hcl : trade.status = Status.CLOSED
    · simp only [if_pos hcl]
      exact hinv
    simp only [if_neg hcl]
    by_cases hext : (s.loopCount + 1) % 60 = 0 ∧ i.sellEnv.realMode = true ∧
        i.tokenBalance ≤ 0
    · simp only [if_pos hext]
      intro h
      rw [lockedOf_updateTrade] at h
      simp only [htr, Option.isSome_some, if_pos] at h
      apply hinv
      unfold lockedOf
      rw [htr]
      simpa using h
    simp only [if_neg hext]
    cases hpr : (resolvePrice { s with loopCount := s.loopCount + 1 } i
        (s.loopCount + 1)).price with
    | none => simp only [hpr]; exact hinv
    | some p =>
      simp only [hpr]
      exact decisionCore_beInv entry trade (afterPrice { s with loopCount := s.loopCount + 1 }
        (resolvePrice { s with loopCount := s.loopCount + 1 } i
          (s.loopCount + 1))) i p (resolvePrice { s with loopCount := s.loopCount + 1 } i
        (s.loopCount + 1)).logs htr hinv

theorem monitorCycle_legacy (entry : ℚ) (s : MonitorState) (i : CycleInput) :
    tp2LegacyOf (monitorCycle entry s i).st.ts = tp2LegacyOf s.ts := by
  unfold monitorCycle
  dsimp only
  cases htr : s.ts.trade with
  | none => simp only [htr]
  | some trade =>
    simp only [htr]
    by_cases hcl : trade.status = Status.CLOSED
    · simp only [if_pos hcl]
    simp only [if_neg hcl]
    by_cases hext : (s.loopCount + 1) % 60 = 0 ∧ i.sellEnv.realMode = true ∧
        i.tokenBalance ≤ 0
    · simp only [if_pos hext]
      rw [tp2LegacyOf_updateTrade']
      simp only [htr, Option.isSome_some, if_pos]
      unfold tp2LegacyOf
      rw [htr]
    simp only [if_neg hext]
    cases hpr : (resolvePrice { s with loopCount := s.loopCount + 1 } i
        (s.loopCount + 1)).price with
    | none =>
      simp only [hpr]
      rfl
    | some p =>
      simp only [hpr]
      exact decisionCore_legacy entry trade (afterPrice { s with loopCount := s.loopCount + 1 }
        (resolvePrice { s with loopCount := s.loopCount + 1 } i
          (s.loopCount + 1))) i p (resolvePrice { s with loopCount := s.loopCount + 1 } i
        (s.loopCount + 1)).logs htr

theorem monitorCycle_locks (entry : ℚ) (s : MonitorState) (i : CycleInput) :
    (s.tpLocks.lock2x = true →
      (monitorCycle entry s i).st.tpLocks.lock2x = true) ∧
    (s.tpLocks.lock3x = true →
      (monitorCycle entry s i).st.tpLocks.lock3x = true) ∧
    (s.tpLocks.lock5x = true →
      (monitorCycle entry s i).st.tpLocks.lock5x = true) := by
  unfold monitorCycle
  dsimp only
  cases htr : s.ts.trade with
  | none =>
    simp only [htr]
    exact ⟨fun h => h, fun h => h, fun h => h⟩
  | some trade =>
    simp only [htr]
    by_cases hcl : trade.status = Status.CLOSED
    · simp only [if_pos hcl]
      exact ⟨fun h => h, fun h => h, fun h => h⟩
    simp only [if_neg hcl]
    by_cases hext : (s.loopCount + 1) % 60 = 0 ∧ i.sellEnv.realMode = true ∧
        i.tokenBalance ≤ 0
    · simp only [if_pos hext]
      exact ⟨fun h => h, fun h => h, fun h => h⟩
    simp only [if_neg hext]
    cases hpr : (resolvePrice { s with loopCount := s.loopCount + 1 } i
        (s.loopCount + 1)).price with
    | none =>
      simp only [hpr]
      exact ⟨fun h => h, fun h => h, fun h => h⟩
    | some p =>
      simp only [hpr]
      exact decisionCore_locks entry trade (afterPrice { s with loopCount := s.loopCount + 1 }
        (resolvePrice { s with loopCount := s.loopCount + 1 } i
          (s.loopCount + 1))) i p (resolvePrice { s with loopCount := s.loopCount + 1 } i
        (s.loopCount + 1)).logs

theorem monitorCycle_events (entry : ℚ) (s : MonitorState) (i : CycleInput) :
    (monitorCycle entry s i).events.sellCalls.length ≤ 1 ∧
    (∀ b, (monitorCycle entry s i).events.bundle = some b →
      (monitorCycle entry s i).events.sellCalls =
        [(min b.1 1, String.intercalate " + " b.2)]) := by
  unfold monitorCycle
  dsimp only
  cases htr : s.ts.trade with
  | none =>
    simp only [htr]
    exact ⟨by norm_num, by intro b hb; simp at hb⟩
  | some trade =>
    simp only [htr]
    by_cases hcl : trade.status = Status.CLOSED
    · simp only [if_pos hcl]
      exact ⟨by norm_num, by intro b hb; simp at hb⟩
    simp only [if_neg hcl]
    by_cases hext : (s.loopCount + 1) % 60 = 0 ∧ i.sellEnv.realMode = true ∧
        i.tokenBalance ≤ 0
    · simp only [if_pos hext]
      exact ⟨by norm_num, by intro b hb; simp at hb⟩
    simp only [if_neg hext]
    cases hpr : (resolvePrice { s with loopCount := s.loopCount + 1 } i
        (s.loopCount + 1)).price with
    | none =>
      simp only [hpr]
      exact ⟨by norm_num, by intro b hb; simp at hb⟩
    | some p =>
      simp only [hpr]
      exact decisionCore_events entry trade (afterPrice { s with loopCount := s.loopCount + 1 }
        (resolvePrice { s with loopCount := s.loopCount + 1 } i
          (s.loopCount + 1))) i p (resolvePrice { s with loopCount := s.loopCount + 1 } i
        (s.loopCount + 1)).logs


/-! ### Tier-firing race model, alert-range properties, price-failure facts -/
/-- A fresh per-cycle bundling accumulator as built at trader.py:480-482,
with the meta blob observed by that cycle and the in-memory lock set. -/
def freshTp (m : Meta) (locks : TpLocks) : TpState :=
  ⟨0, [], 0, m, locks, false⟩

/-- Number of TP1 firings over a sequence of poll cycles, where each cycle
observes a price and a (possibly stale) persisted meta blob, while the
in-memory lock set is threaded synchronously from cycle to cycle
(trader.py:514-523: the lock is added before the awaited sell, so
overlapping cycles cannot both pass the guard). -/
def tp1RaceCount (entry : ℚ) (locks : TpLocks) : List (ℚ × Meta) → ℕ
  | [] => 0
  | (p, m) :: rest =>
    let t := tp1Step entry p (freshTp m locks)
    if t.triggered then 1 + tp1RaceCount entry t.locks rest
    else tp1RaceCount entry locks rest

def tp2RaceCount (entry : ℚ) (locks : TpLocks) : List (ℚ × Meta) → ℕ
  | [] => 0
  | (p, m) :: rest =>
    let t := tp2Step entry p (freshTp m locks)
    if t.triggered then 1 + tp2RaceCount entry t.locks rest
    else tp2RaceCount entry locks rest

def tp3RaceCount (entry : ℚ) (locks : TpLocks) : List (ℚ × Meta) → ℕ
  | [] => 0
  | (p, m) :: rest =>
    let t := tp3Step entry p (freshTp m locks)
    if t.triggered then 1 + tp3RaceCount entry t.locks rest
    else tp3RaceCount entry locks rest

theorem tp1RaceCount_locked (entry : ℚ) (locks : TpLocks)
    (h : locks.lock2x = true) (obs : List (ℚ × Meta)) :
    tp1RaceCount entry locks obs = 0 := by
  induction obs with
  | nil => rfl
  | cons hd rest ih =>
    unfold tp1RaceCount tp1Step freshTp
    simp only [h]
    simp
    exact ih

theorem tp1RaceCount_le_one (entry : ℚ) (locks : TpLocks)
    (obs : List (ℚ × Meta)) : tp1RaceCount entry locks obs ≤ 1 := by
  induction obs generalizing locks with
  | nil => norm_num [tp1RaceCount]
  | cons hd rest ih =>
    unfold tp1RaceCount
    dsimp only
    split
    · rename_i htrig
      have hlock : (tp1Step entry hd.1 (freshTp hd.2 locks)).locks.lock2x
          = true := by
        unfold tp1Step freshTp at htrig ⊢
        by_cases hg : (decide (hd.1 ≥ entry * TP1_FACTOR) &&
            !hd.2.tp2xHit && !locks.lock2x) = true
        · simp only [hg, if_true]
        · simp only [hg] at htrig
          simp at htrig
      rw [tp1RaceCount_locked entry _ hlock]
    · exact ih locks

theorem tp2RaceCount_locked (entry : ℚ) (locks : TpLocks)
    (h : locks.lock3x = true) (obs : List (ℚ × Meta)) :
    tp2RaceCount entry locks obs = 0 := by
  induction obs with
  | nil => rfl
  | cons hd rest ih =>
    unfold tp2RaceCount tp2Step freshTp
    simp only [h]
    simp
    exact ih

theorem tp2RaceCount_le_one (entry : ℚ) (locks : TpLocks)
    (obs : List (ℚ × Meta)) : tp2RaceCount entry locks obs ≤ 1 := by
  induction obs generalizing locks with
  | nil => norm_num [tp2RaceCount]
  | cons hd rest ih =>
    unfold tp2RaceCount
    dsimp only
    split
    · rename_i htrig
      have hlock : (tp2Step entry hd.1 (freshTp hd.2 locks)).locks.lock3x
          = true := by
        unfold tp2Step freshTp at htrig ⊢
        by_cases hg : (decide (hd.1 ≥ entry * TP2_FACTOR) &&
            !hd.2.tp3Hit && !locks.lock3x) = true
        · simp only [hg, if_true]
        · simp only [hg] at htrig
          simp at htrig
      rw [tp2RaceCount_locked entry _ hlock]
    · exact ih locks

theorem tp3RaceCount_locked (entry : ℚ) (locks : TpLocks)
    (h : locks.lock5x = true) (obs : List (ℚ × Meta)) :
    tp3RaceCount entry locks obs = 0 := by
  induction obs with
  | nil => rfl
  | cons hd rest ih =>
    unfold tp3RaceCount tp3Step freshTp
    simp only [h]
    simp
    exact ih

theorem tp3RaceCount_le_one (entry : ℚ) (locks : TpLocks)
    (obs : List (ℚ × Meta)) : tp3RaceCount entry locks obs ≤ 1 := by
  induction obs generalizing locks with
  | nil => norm_num [tp3RaceCount]
  | cons hd rest ih =>
    unfold tp3RaceCount
    dsimp only
    split
    · rename_i htrig
      have hlock : (tp3Step entry hd.1 (freshTp hd.2 locks)).locks.lock5x
          = true := by
        unfold tp3Step freshTp at htrig ⊢
        by_cases hg : (decide (hd.1 ≥ entry * TP3_FACTOR) &&
            !hd.2.tp4Hit && !locks.lock5x) = true
        · simp only [hg, if_true]
        · simp only [hg] at htrig
          simp at htrig
      rw [tp3RaceCount_locked entry _ hlock]
    · exact ih locks

-- C5 support: properties of intRange
theorem intRangeGo_mem (a k : ℤ) (n : ℕ) :
    k ∈ intRangeGo a n ↔ a ≤ k ∧ k < a + n := by
  induction n generalizing a with
  | zero => simp [intRangeGo]
  | succ m ih =>
    unfold intRangeGo
    simp only [List.mem_cons, ih]
    omega

theorem intRange_mem (a b k : ℤ) : k ∈ intRange a b ↔ a ≤ k ∧ k ≤ b := by
  unfold intRange
  rw [intRangeGo_mem]
  omega

theorem intRangeGo_chain (a : ℤ) (n : ℕ) :
    List.Chain' (· < ·) (intRangeGo a n) := by
  induction n generalizing a with
  | zero => simp [intRangeGo]
  | succ m ih =>
    rw [intRangeGo, List.chain'_cons']
    constructor
    · intro y hy
      have hmem := (intRangeGo_mem (a + 1) y m).mp (List.mem_of_mem_head? hy)
      omega
    · exact ih (a + 1)

theorem intRange_chain (a b : ℤ) : List.Chain' (· < ·) (intRange a b) :=
  intRangeGo_chain a _

theorem intRange_nodup (a b : ℤ) : (intRange a b).Nodup := by
  have h := intRange_chain a b
  rw [List.chain'_iff_pairwise] at h
  exact h.imp (fun hlt => ne_of_lt hlt)

theorem intRange_count (a b k : ℤ) :
    (intRange a b).count k = if a ≤ k ∧ k ≤ b then 1 else 0 := by
  split
  · rename_i h
    exact List.count_eq_one_of_mem (intRange_nodup a b)
      ((intRange_mem a b k).mpr h)
  · rename_i h
    exact List.count_eq_zero_of_not_mem
      (fun hm => h ((intRange_mem a b k).mp hm))

theorem two_le_of_pyInt (x : ℚ) (h : 2 ≤ pyInt x) : (2:ℚ) ≤ x := by
  unfold pyInt at h
  split at h
  · rename_i hneg
    have h0 : (0:ℤ) ≤ ⌊-x⌋ := Int.floor_nonneg.mpr (by linarith)
    omega
  · calc (2:ℚ) = ((2:ℤ):ℚ) := by norm_num
    _ ≤ ((⌊x⌋ : ℤ) : ℚ) := by exact_mod_cast h
    _ ≤ x := Int.floor_le x

/-- Whether every external price source of a cycle failed: Jupiter and
Helius returned 0, both DexScreener fetches returned nothing, and the
cached DexScreener blob is absent or priceless. -/
def allPriceSourcesFailed (s : MonitorState) (i : CycleInput) : Prop :=
  i.jupPrice = 0 ∧ i.heliusPrice = 0 ∧ i.freshData = none ∧
  i.freshData2 = none ∧
  (s.cachedDataPrice = none ∨ s.cachedDataPrice = some 0)

theorem resolvePrice_allFailed (s : MonitorState) (i : CycleInput) (lc : ℕ)
    (h : allPriceSourcesFailed s i) :
    (0 < s.lastValidPrice →
      (resolvePrice s i lc).price = some s.lastValidPrice ∧
      (resolvePrice s i lc).priceFailCount = s.priceFailCount + 1 ∧
      (resolvePrice s i lc).logs = failLogs (s.priceFailCount + 1)) ∧
    (¬ 0 < s.lastValidPrice →
      (resolvePrice s i lc).price = none ∧
      (resolvePrice s i lc).priceFailCount = s.priceFailCount + 1) := by
  obtain ⟨h1, h2, h3, h4, h5⟩ := h
  unfold resolvePrice
  simp only [h1, h2, h3, h4]
  constructor
  · intro hlv
    rcases h5 with h5 | h5 <;>
      simp [h5, hlv, if_pos hlv, lt_irrefl]
  · intro hlv
    rcases h5 with h5 | h5 <;>
      simp [h5, hlv, lt_irrefl]


/-! ### Claims -/
theorem intercalate_tp1 :
    String.intercalate " + " ["TP (1.8x)"] = "TP (1.8x)" := rfl

theorem intercalate_tp3 :
    String.intercalate " + " ["TP (5.0x)"] = "TP (5.0x)" := rfl

theorem status_OPEN_ne_CLOSED : (Status.OPEN = Status.CLOSED) = False := by simp
theorem status_OPEN_ne_SELL_REQUEST :
    (Status.OPEN = Status.SELL_REQUEST) = False := by simp
theorem status_PARTIAL_ne_CLOSED :
    (Status.PARTIAL = Status.CLOSED) = False := by simp
theorem status_PARTIAL_ne_SELL_REQUEST :
    (Status.PARTIAL = Status.SELL_REQUEST) = False := by simp

def openTrade : Trade := ⟨Status.OPEN, 1, 1, 0, {}⟩
def baseState : TraderState := ⟨some openTrade, [], false, none, true, []⟩
def paperEnv : SellEnv := ⟨false, 0, fun _ => 0, fun _ => false, 0, 0, 0⟩
def inputTp1 : CycleInput := ⟨9/5, 0, none, none, 0, 10, 0, 0, 1, 0, paperEnv⟩
def inputStop : CycleInput := { inputTp1 with jupPrice := 1/2, now := 40 }

set_option maxHeartbeats 1000000 in
/-- Claim C1 (counterexample): the sum of `percentageSold` across a
position's sell ledger can exceed 1.0, refuting the claimed invariant.
Concretely, a TP1 cycle at price 1.8 logs a record with fraction 0.5 and
a later stop-loss cycle at price 0.5 calls `sell` with fraction 1.0 of
the remaining position (trader.py:644) and logs 1.0, so the ledger sums
to 1.5. -/
theorem c1_sold_sum_exceeds_one :
    ledgerSoldSum (runCycles 1 (monitorInit baseState 1)
      [inputTp1, inputStop]).1.ts.ledger = 3/2 ∧ (1 : ℚ) < 3/2 := by
  constructor
  · norm_num [runCycles, monitorCycle, decisionCore, afterPrice, resolvePrice,
      sell, mcStep, beStep, alertStep, tp1Step, tp2Step, tp3Step, raiseTo,
      cooldownActive, release, finishSell, realSellLoop, realSellLoopGo,
      updateTrade, updateTradeNoMeta, ledgerSoldSum, monitorInit, failLogs,
      alertMilestones, pyInt, baseState, openTrade, paperEnv, inputTp1,
      inputStop, TP1_FACTOR, TP1_AMOUNT, TP1_SL, TP2_FACTOR, TP2_AMOUNT,
      TP2_SL, TP3_FACTOR, TP3_AMOUNT, TP3_SL, HARD_STOP_LOSS,
      TRAILING_STOP_PERCENT, SIMULATED_SLIPPAGE, PRIORITY_FEE,
      SELL_COOLDOWN_SECONDS, status_OPEN_ne_CLOSED,
      status_OPEN_ne_SELL_REQUEST, status_PARTIAL_ne_CLOSED,
      status_PARTIAL_ne_SELL_REQUEST, intercalate_tp1, intercalate_tp3]
  · norm_num

/-- Claim C1 (amended): every sell-transaction record appended during a
poll cycle individually has `percentageSold ≤ 1` — the bundled tier sell
is capped at `min total 1`, volume decay sells 0.25 and full closes 1.0 —
but since a full-liquidation close records 1.0 relative to the remaining
position, the ledger sum is not bounded by 1.0. -/
theorem c1_each_record_le_one (entry : ℚ) (s : MonitorState) (i : CycleInput)
    (r : SellRecord) (hr : r ∈ (monitorCycle entry s i).st.ts.ledger) :
    r ∈ s.ts.ledger ∨ r.percentageSold ≤ 1 :=
  monitorCycle_ledger entry s i r hr

set_option maxHeartbeats 1000000 in
/-- Witness for the amended C1 at the TP1 cycle: the appended record has
fraction 1/2 ≤ 1. -/
theorem c1_each_record_le_one_witness :
    (⟨441/250, 8817/10000, 1/2, "TP (1.8x)"⟩ : SellRecord) ∈
      (monitorCycle 1 (monitorInit baseState 1) inputTp1).st.ts.ledger ∧
    ((⟨441/250, 8817/10000, 1/2, "TP (1.8x)"⟩ : SellRecord) ∈
        (monitorInit baseState 1).ts.ledger ∨
      (⟨441/250, 8817/10000, 1/2, "TP (1.8x)"⟩ : SellRecord).percentageSold ≤ 1) := by
  have hmem : (⟨441/250, 8817/10000, 1/2, "TP (1.8x)"⟩ : SellRecord) ∈
      (monitorCycle 1 (monitorInit baseState 1) inputTp1).st.ts.ledger := by
    norm_num [monitorCycle, decisionCore, afterPrice, resolvePrice,
      sell, mcStep, beStep, alertStep, tp1Step, tp2Step, tp3Step, raiseTo,
      cooldownActive, release, finishSell, realSellLoop, realSellLoopGo,
      updateTrade, updateTradeNoMeta, monitorInit, failLogs,
      alertMilestones, pyInt, baseState, openTrade, paperEnv, inputTp1,
      TP1_FACTOR, TP1_AMOUNT, TP1_SL, TP2_FACTOR, TP2_AMOUNT,
      TP2_SL, TP3_FACTOR, TP3_AMOUNT, TP3_SL, HARD_STOP_LOSS,
      TRAILING_STOP_PERCENT, SIMULATED_SLIPPAGE, PRIORITY_FEE,
      SELL_COOLDOWN_SECONDS, status_OPEN_ne_CLOSED,
      status_OPEN_ne_SELL_REQUEST, status_PARTIAL_ne_CLOSED,
      status_PARTIAL_ne_SELL_REQUEST, intercalate_tp1, intercalate_tp3]
  exact ⟨hmem, c1_each_record_le_one 1 (monitorInit baseState 1) inputTp1 _ hmem⟩


def inputLock : CycleInput := { inputTp1 with jupPrice := 8/5 }
def tradeAllButLast : Trade :=
  ⟨Status.OPEN, 1, 1, 0,
   { breakEvenLocked := true, tp2xHit := true, tp3Hit := true }⟩
def stateAllButLast : TraderState :=
  { baseState with trade := some tradeAllButLast }
def inputFiveX : CycleInput := { inputTp1 with jupPrice := 5 }
def cooldownState : TraderState := { baseState with cooldownAt := some 95 }
def inputStopNow100 : CycleInput :=
  { inputTp1 with jupPrice := 1/2, now := 100 }
def okSellEnv : SellEnv := ⟨true, 5, fun _ => 5, fun _ => true, 1, 2, 30⟩
def failSellEnv : SellEnv := ⟨true, 5, fun _ => 5, fun _ => false, 1, 2, 40⟩
def tradePeak : Trade := ⟨Status.OPEN, 1, 1, 0, { peakVolume := 100 }⟩
def statePeak : TraderState := { baseState with trade := some tradePeak }
def inputTp1Decay : CycleInput := { inputTp1 with buys5m := 6, sells5m := 4 }
def inputAllFail : CycleInput := { inputTp1 with jupPrice := 0 }
def stateLast3 : MonitorState :=
  { monitorInit baseState 1 with lastValidPrice := 3 }

def decayFlagOf (ts : TraderState) : Bool :=
  match ts.trade with
  | none => false
  | some tr => tr.meta.volumeDecayTriggered

set_option maxHeartbeats 1000000 in
/-- Claim C2 (counterexample): in a cycle where both the TP1 condition
and the volume-decay condition hold (profit +80 % > 20 %, persisted peak
volume 100 > 50, current volume 10 < 50, decay not yet triggered), the
cycle issues the single bundled call `(0.5, "TP (1.8x)")` — the decay
fraction 0.25 is *not* accumulated into the bundle (no call carries
0.5 + 0.25) and the decay flag stays unset, because the bundled-sell
branch `continue`s before the volume-decay check (trader.py:602). -/
theorem c2_decay_not_bundled :
    (monitorCycle 1 (monitorInit statePeak 1) inputTp1Decay).events.sellCalls
      = [(1/2, "TP (1.8x)")] ∧
    tradePeak.meta.volumeDecayTriggered = false ∧
    (50 : ℚ) < tradePeak.meta.peakVolume ∧
    inputTp1Decay.buys5m + inputTp1Decay.sells5m <
      tradePeak.meta.peakVolume * (1/2) ∧
    (1/5 : ℚ) < ((9/5 : ℚ) - 1) / 1 ∧
    (∀ c ∈ (monitorCycle 1 (monitorInit statePeak 1)
        inputTp1Decay).events.sellCalls, c.1 ≠ 1/2 + 1/4) ∧
    decayFlagOf (monitorCycle 1 (monitorInit statePeak 1)
        inputTp1Decay).st.ts = false := by
  refine ⟨?_, rfl, by norm_num [tradePeak], ?_, by norm_num, ?_, ?_⟩ <;>
    norm_num [monitorCycle, decisionCore, afterPrice, resolvePrice,
      sell, mcStep, beStep, alertStep, tp1Step, tp2Step, tp3Step, raiseTo,
      cooldownActive, release, finishSell, realSellLoop, realSellLoopGo,
      updateTrade, updateTradeNoMeta, monitorInit, restartState, failLogs,
      alertMilestones, pyInt, baseState, openTrade, paperEnv,
      TP1_FACTOR, TP1_AMOUNT, TP1_SL, TP2_FACTOR, TP2_AMOUNT,
      TP2_SL, TP3_FACTOR, TP3_AMOUNT, TP3_SL, HARD_STOP_LOSS,
      TRAILING_STOP_PERCENT, SIMULATED_SLIPPAGE, PRIORITY_FEE,
      SELL_COOLDOWN_SECONDS, status_OPEN_ne_CLOSED,
      status_OPEN_ne_SELL_REQUEST, status_PARTIAL_ne_CLOSED,
      status_PARTIAL_ne_SELL_REQUEST, intercalate_tp1, intercalate_tp3, decayFlagOf, statePeak, tradePeak, inputTp1Decay, inputTp1]

/-- Claim C2 (amended): every poll cycle issues at most one sell call;
when tiers fire, the single call carries the accumulated fraction capped
at 100 % with the tier reasons concatenated by " + ".  The volume-decay
rule is not part of the bundle, but its branch is skipped whenever a
bundled sell executed, so the one-call-per-cycle property still holds. -/
theorem c2_one_sell_call_per_cycle (entry : ℚ) (s : MonitorState)
    (i : CycleInput) :
    (monitorCycle entry s i).events.sellCalls.length ≤ 1 ∧
    (∀ b, (monitorCycle entry s i).events.bundle = some b →
      (monitorCycle entry s i).events.sellCalls =
        [(min b.1 1, String.intercalate " + " b.2)]) :=
  monitorCycle_events entry s i

set_option maxHeartbeats 1000000 in
/-- Witness for the amended C2 at the TP1 cycle: the bundle is
`(0.5, ["TP (1.8x)"])` and the single call matches it. -/
theorem c2_one_sell_call_per_cycle_witness :
    (monitorCycle 1 (monitorInit baseState 1)
        inputTp1).events.sellCalls.length ≤ 1 ∧
    (monitorCycle 1 (monitorInit baseState 1) inputTp1).events.sellCalls =
      [(min (1/2 : ℚ) 1, String.intercalate " + " ["TP (1.8x)"])] := by
  have hb : (monitorCycle 1 (monitorInit baseState 1) inputTp1).events.bundle
      = some (1/2, ["TP (1.8x)"]) := by
    norm_num [monitorCycle, decisionCore, afterPrice, resolvePrice,
      sell, mcStep, beStep, alertStep, tp1Step, tp2Step, tp3Step, raiseTo,
      cooldownActive, release, finishSell, realSellLoop, realSellLoopGo,
      updateTrade, updateTradeNoMeta, monitorInit, restartState, failLogs,
      alertMilestones, pyInt, baseState, openTrade, paperEnv,
      TP1_FACTOR, TP1_AMOUNT, TP1_SL, TP2_FACTOR, TP2_AMOUNT,
      TP2_SL, TP3_FACTOR, TP3_AMOUNT, TP3_SL, HARD_STOP_LOSS,
      TRAILING_STOP_PERCENT, SIMULATED_SLIPPAGE, PRIORITY_FEE,
      SELL_COOLDOWN_SECONDS, status_OPEN_ne_CLOSED,
      status_OPEN_ne_SELL_REQUEST, status_PARTIAL_ne_CLOSED,
      status_PARTIAL_ne_SELL_REQUEST, intercalate_tp1, intercalate_tp3, inputTp1]
  exact ⟨(c2_one_sell_call_per_cycle 1 (monitorInit baseState 1) inputTp1).1,
    (c2_one_sell_call_per_cycle 1 (monitorInit baseState 1) inputTp1).2
      (1/2, ["TP (1.8x)"]) hb⟩


set_option maxHeartbeats 1000000 in
/-- Claim C3 (counterexample): the stop loss is not persisted, so it is
not monotone across a restart.  A cycle at price 1.6 arms the break-even
lock and raises the stop to 1.04 ≥ entry; after a process restart,
`resume_monitoring` re-enters `monitor_position`, which re-initialises the
stop loss to `entry × 0.70 = 0.7 < entry` (trader.py:199) even though the
persisted `break_even_locked` flag is still true. -/
theorem c3_restart_resets_stop :
    (monitorCycle 1 (monitorInit baseState 1) inputLock).st.stopLossPrice =
      26/25 ∧
    lockedOf (monitorCycle 1 (monitorInit baseState 1) inputLock).st.ts =
      true ∧
    (monitorCycle 1 (monitorInit baseState 1)
        inputLock).st.ts.trade.map Trade.status = some Status.OPEN ∧
    (monitorInit (restartState (monitorCycle 1 (monitorInit baseState 1)
        inputLock).st.ts) 1).stopLossPrice = 7/10 ∧
    lockedOf (restartState (monitorCycle 1 (monitorInit baseState 1)
        inputLock).st.ts) = true ∧
    (7/10 : ℚ) < 1 ∧ (7/10 : ℚ) < 26/25 := by
  refine ⟨?_, ?_, ?_, ?_, ?_, by norm_num, by norm_num⟩ <;>
    norm_num [monitorCycle, decisionCore, afterPrice, resolvePrice,
      sell, mcStep, beStep, alertStep, tp1Step, tp2Step, tp3Step, raiseTo,
      cooldownActive, release, finishSell, realSellLoop, realSellLoopGo,
      updateTrade, updateTradeNoMeta, monitorInit, restartState, failLogs,
      alertMilestones, pyInt, baseState, openTrade, paperEnv,
      TP1_FACTOR, TP1_AMOUNT, TP1_SL, TP2_FACTOR, TP2_AMOUNT,
      TP2_SL, TP3_FACTOR, TP3_AMOUNT, TP3_SL, HARD_STOP_LOSS,
      TRAILING_STOP_PERCENT, SIMULATED_SLIPPAGE, PRIORITY_FEE,
      SELL_COOLDOWN_SECONDS, status_OPEN_ne_CLOSED,
      status_OPEN_ne_SELL_REQUEST, status_PARTIAL_ne_CLOSED,
      status_PARTIAL_ne_SELL_REQUEST, intercalate_tp1, intercalate_tp3, lockedOf, inputLock, inputTp1]

/-- Claim C3 (amended): within a single monitoring run, the stop-loss
price is non-decreasing across every poll cycle, and the invariant "once
the break-even flag of the persisted row is set, the stop loss is at
least the entry price" is preserved by every cycle.  The claim fails
across a process restart (see the counterexample): the resumed run starts
again from `entry × HARD_STOP_LOSS`. -/
theorem c3_monotone_within_run (entry : ℚ) (s : MonitorState)
    (i : CycleInput) :
    s.stopLossPrice ≤ (monitorCycle entry s i).st.stopLossPrice ∧
    ((lockedOf s.ts = true → entry ≤ s.stopLossPrice) →
      lockedOf (monitorCycle entry s i).st.ts = true →
        entry ≤ (monitorCycle entry s i).st.stopLossPrice) :=
  ⟨monitorCycle_sl entry s i, fun hinv => monitorCycle_beInv entry s i hinv⟩

set_option maxHeartbeats 1000000 in
/-- Witness for the amended C3 at the break-even cycle: the stop rises
from 0.7 to 1.04 and stays at or above the entry price 1. -/
theorem c3_monotone_within_run_witness :
    (monitorInit baseState 1).stopLossPrice ≤
      (monitorCycle 1 (monitorInit baseState 1) inputLock).st.stopLossPrice ∧
    (1 : ℚ) ≤
      (monitorCycle 1 (monitorInit baseState 1) inputLock).st.stopLossPrice := by
  have h1 : lockedOf (monitorInit baseState 1).ts = false := rfl
  have h2 : lockedOf (monitorCycle 1 (monitorInit baseState 1)
      inputLock).st.ts = true := by
    norm_num [monitorCycle, decisionCore, afterPrice, resolvePrice,
      sell, mcStep, beStep, alertStep, tp1Step, tp2Step, tp3Step, raiseTo,
      cooldownActive, release, finishSell, realSellLoop, realSellLoopGo,
      updateTrade, updateTradeNoMeta, monitorInit, restartState, failLogs,
      alertMilestones, pyInt, baseState, openTrade, paperEnv,
      TP1_FACTOR, TP1_AMOUNT, TP1_SL, TP2_FACTOR, TP2_AMOUNT,
      TP2_SL, TP3_FACTOR, TP3_AMOUNT, TP3_SL, HARD_STOP_LOSS,
      TRAILING_STOP_PERCENT, SIMULATED_SLIPPAGE, PRIORITY_FEE,
      SELL_COOLDOWN_SECONDS, status_OPEN_ne_CLOSED,
      status_OPEN_ne_SELL_REQUEST, status_PARTIAL_ne_CLOSED,
      status_PARTIAL_ne_SELL_REQUEST, intercalate_tp1, intercalate_tp3, lockedOf, inputLock, inputTp1]
  exact ⟨(c3_monotone_within_run 1 (monitorInit baseState 1) inputLock).1,
    (c3_monotone_within_run 1 (monitorInit baseState 1) inputLock).2
      (fun h => absurd h (by rw [h1]; simp)) h2⟩

/-- Claim C4: each take-profit tier fires at most once per position.
Over any sequence of poll cycles — each observing an arbitrary price and
an arbitrarily stale persisted flag, modelling overlapping cycles before
the flag round-trips — the number of firings of each tier is at most one,
because the in-memory lock set is consulted and extended synchronously
before the awaited sell; moreover the monitoring cycle never clears a
lock while the run lives. -/
theorem c4_tier_fires_at_most_once :
    (∀ (entry : ℚ) (locks : TpLocks) (obs : List (ℚ × Meta)),
      tp1RaceCount entry locks obs ≤ 1) ∧
    (∀ (entry : ℚ) (locks : TpLocks) (obs : List (ℚ × Meta)),
      tp2RaceCount entry locks obs ≤ 1) ∧
    (∀ (entry : ℚ) (locks : TpLocks) (obs : List (ℚ × Meta)),
      tp3RaceCount entry locks obs ≤ 1) ∧
    (∀ (entry : ℚ) (s : MonitorState) (i : CycleInput),
      (s.tpLocks.lock2x = true →
        (monitorCycle entry s i).st.tpLocks.lock2x = true) ∧
      (s.tpLocks.lock3x = true →
        (monitorCycle entry s i).st.tpLocks.lock3x = true) ∧
      (s.tpLocks.lock5x = true →
        (monitorCycle entry s i).st.tpLocks.lock5x = true)) :=
  ⟨tp1RaceCount_le_one, tp2RaceCount_le_one, tp3RaceCount_le_one,
   monitorCycle_locks⟩

/-- Witness for C4: three consecutive cycles above the TP1 threshold with
a never-updated flag still fire at most once, and a held lock survives a
cycle. -/
theorem c4_tier_fires_at_most_once_witness :
    tp1RaceCount 1 {} [(2, {}), (2, {}), (2, {})] ≤ 1 ∧
    (monitorCycle 1 { monitorInit baseState 1 with
        tpLocks := { lock2x := true } } inputTp1).st.tpLocks.lock2x = true :=
  ⟨c4_tier_fires_at_most_once.1 1 {} [(2, {}), (2, {}), (2, {})],
   (c4_tier_fires_at_most_once.2.2.2 1 _ inputTp1).1 rfl⟩

/-- Claim C5: in a cycle where the price multiple reaches x with
`int(x) > m` (last alerted multiple m ≥ 1), the alert list is exactly
the integers from `max 2 (m+1)` up to `int(x)`, strictly ascending, each
appearing exactly once — no multiple is skipped however large the
jump. -/
theorem c5_no_skip_alerts (m : ℤ) (x : ℚ) (hm : 1 ≤ m)
    (hjump : m < pyInt x) :
    alertMilestones m x = intRange (max 2 (m + 1)) (pyInt x) ∧
    List.Chain' (· < ·) (alertMilestones m x) ∧
    ∀ k : ℤ, (alertMilestones m x).count k =
      if max 2 (m + 1) ≤ k ∧ k ≤ pyInt x then 1 else 0 := by
  have hmax : max 2 (m + 1) = m + 1 := by omega
  have hx : (2:ℚ) ≤ x := two_le_of_pyInt x (by omega)
  have hguard : pyInt x > m ∧ x ≥ 2 := ⟨hjump, hx⟩
  unfold alertMilestones
  rw [if_pos hguard, hmax]
  exact ⟨rfl, intRange_chain _ _, fun k => intRange_count _ _ k⟩

/-- Witness for C5 at m = 1, x = 7.2: alerts are [2, 3, 4, 5, 6, 7]. -/
theorem c5_no_skip_alerts_witness :
    (1:ℤ) ≤ 1 ∧ (1:ℤ) < pyInt (36/5 : ℚ) ∧
    alertMilestones 1 (36/5) = intRange (max 2 (1 + 1)) (pyInt (36/5 : ℚ)) := by
  have hp : pyInt (36/5 : ℚ) = 7 := by
    norm_num [pyInt, Int.floor_eq_iff]
  exact ⟨le_refl 1, by rw [hp]; norm_num,
    (c5_no_skip_alerts 1 (36/5) (le_refl 1) (by rw [hp]; norm_num)).1⟩


/-- Claim C6: if a real-mode sell finds a positive balance but obtains no
transaction signature in any of its five attempts, the failure is
escalated with a loud operator notification and the function returns
without appending a ledger record, without changing the position row
(status, PnL or meta — in particular never CLOSED), and with the
in-flight lock released. -/
theorem c6_failed_sell_is_loud_and_preserving (s : TraderState)
    (env : SellEnv) (now p pct : ℚ) (reason : String) (tr : Trade)
    (hcd : cooldownActive s now = false) (hp : s.pendingSell = false)
    (htr : s.trade = some tr) (hpaper : tr.meta.isPaper = false)
    (hreal : env.realMode = true) (hbal : 0 < env.initialBalance)
    (hfail : ∀ k, k < 5 → 0 < env.attemptBalance k ∧
      env.attemptTxSig k = false) :
    (sell s env now p pct reason).1.trade = s.trade ∧
    (sell s env now p pct reason).1.ledger = s.ledger ∧
    (sell s env now p pct reason).1.notifications =
      sellFailedMsg :: s.notifications ∧
    (sell s env now p pct reason).1.pendingSell = false :=
  sell_failed_real s env now p pct reason tr hcd hp htr hpaper hreal hbal hfail

/-- Witness for C6 with an engine whose every attempt fails. -/
theorem c6_failed_sell_witness :
    (sell baseState failSellEnv 0 2 (1/2) "STOP LOSS").1.trade =
      baseState.trade ∧
    (sell baseState failSellEnv 0 2 (1/2) "STOP LOSS").1.ledger =
      baseState.ledger ∧
    (sell baseState failSellEnv 0 2 (1/2) "STOP LOSS").1.notifications =
      sellFailedMsg :: baseState.notifications ∧
    (sell baseState failSellEnv 0 2 (1/2) "STOP LOSS").1.pendingSell =
      false :=
  c6_failed_sell_is_loud_and_preserving baseState failSellEnv 0 2 (1/2)
    "STOP LOSS" openTrade rfl rfl rfl rfl rfl (by norm_num [failSellEnv])
    (by intro k hk; exact ⟨by norm_num [failSellEnv], rfl⟩)

set_option maxHeartbeats 1000000 in
/-- Claim C7 (counterexample): the cooldown timestamp is recorded at the
*initiation* of a sell, not at its completion.  A real sell initiated at
t = 0 completes at t = 30; a second sell at t = 35 arrives only 5 s after
that completion — within the 20 s window the claim describes — yet the
code computes 35 − 0 = 35 ≥ 20 and performs the swap, appending a second
ledger record. -/
theorem c7_second_sell_soon_after_completion_proceeds :
    (35 : ℚ) - (sell baseState okSellEnv 0 2 (1/2) "TP (1.8x)").2 <
      SELL_COOLDOWN_SECONDS ∧
    (sell baseState okSellEnv 0 2 (1/2) "TP (1.8x)").1.ledger.length = 1 ∧
    (sell (sell baseState okSellEnv 0 2 (1/2) "TP (1.8x)").1 okSellEnv 35 2
      (1/4) "VOLUME DECAY").1.ledger.length = 2 := by
  refine ⟨?_, ?_, ?_⟩ <;>
    norm_num [monitorCycle, decisionCore, afterPrice, resolvePrice,
      sell, mcStep, beStep, alertStep, tp1Step, tp2Step, tp3Step, raiseTo,
      cooldownActive, release, finishSell, realSellLoop, realSellLoopGo,
      updateTrade, updateTradeNoMeta, monitorInit, restartState, failLogs,
      alertMilestones, pyInt, baseState, openTrade, paperEnv,
      TP1_FACTOR, TP1_AMOUNT, TP1_SL, TP2_FACTOR, TP2_AMOUNT,
      TP2_SL, TP3_FACTOR, TP3_AMOUNT, TP3_SL, HARD_STOP_LOSS,
      TRAILING_STOP_PERCENT, SIMULATED_SLIPPAGE, PRIORITY_FEE,
      SELL_COOLDOWN_SECONDS, status_OPEN_ne_CLOSED,
      status_OPEN_ne_SELL_REQUEST, status_PARTIAL_ne_CLOSED,
      status_PARTIAL_ne_SELL_REQUEST, intercalate_tp1, intercalate_tp3, okSellEnv]

/-- Claim C7 (amended): the 20 s cooldown is measured from the initiation
of the previous non-skipped sell call: a call arriving less than 20 s
after the recorded timestamp performs no swap and changes no state, and
any call that passes the cooldown and in-flight checks re-arms the
timestamp to its own call time before the swap runs. -/
theorem c7_cooldown_from_initiation (s : TraderState) (env : SellEnv)
    (now p pct t : ℚ) (reason : String) :
    (s.cooldownAt = some t → now - t < SELL_COOLDOWN_SECONDS →
      sell s env now p pct reason = (s, now)) ∧
    (cooldownActive s now = false → s.pendingSell = false →
      (sell s env now p pct reason).1.cooldownAt = some now) := by
  constructor
  · intro h1 h2
    apply sell_skip_cooldown
    unfold cooldownActive
    rw [h1]
    simpa using h2
  · intro h1 h2
    exact sell_arms_cooldown s env now p pct reason h1 h2

/-- Witness for the amended C7: a call 5 s after the stamp is a no-op; a
fresh call arms the stamp at its call time. -/
theorem c7_cooldown_from_initiation_witness :
    sell cooldownState paperEnv 100 1 1 "STOP LOSS" = (cooldownState, 100) ∧
    (sell baseState paperEnv 0 (9/5) (1/2) "TP (1.8x)").1.cooldownAt =
      some 0 :=
  ⟨(c7_cooldown_from_initiation cooldownState paperEnv 100 1 1 95
      "STOP LOSS").1 rfl (by norm_num [SELL_COOLDOWN_SECONDS]),
   (c7_cooldown_from_initiation baseState paperEnv 0 (9/5) (1/2) 0
      "TP (1.8x)").2 rfl rfl⟩

set_option maxHeartbeats 1000000 in
/-- Claim C8: when the last standard tier fires with the other tier flags
already set, the bundled-sell status update writes PARTIAL, not MOONBAG,
even though all standard tiers have now fired — because the MOONBAG
branch tests the meta key `tp2_hit` (trader.py:600), which no code path
ever writes: both the monitoring cycle and `sell` provably preserve that
key, so from its initial absent/false state the MOONBAG status is
unreachable through the bundled-sell path. -/
theorem c8_moonbag_status_unreachable :
    (monitorCycle 1 (monitorInit stateAllButLast 1)
        inputFiveX).st.ts.trade.map Trade.status = some Status.PARTIAL ∧
    (monitorCycle 1 (monitorInit stateAllButLast 1)
        inputFiveX).st.ts.trade.map
      (fun tr => tr.meta.tp2xHit && tr.meta.tp3Hit && tr.meta.tp4Hit) =
        some true ∧
    (∀ (entry : ℚ) (s : MonitorState) (i : CycleInput),
      tp2LegacyOf (monitorCycle entry s i).st.ts = tp2LegacyOf s.ts) ∧
    (∀ (s : TraderState) (env : SellEnv) (now p pct : ℚ) (reason : String),
      tp2LegacyOf (sell s env now p pct reason).1 = tp2LegacyOf s) := by
  refine ⟨?_, ?_, monitorCycle_legacy, sell_tp2Legacy⟩ <;>
    norm_num [monitorCycle, decisionCore, afterPrice, resolvePrice,
      sell, mcStep, beStep, alertStep, tp1Step, tp2Step, tp3Step, raiseTo,
      cooldownActive, release, finishSell, realSellLoop, realSellLoopGo,
      updateTrade, updateTradeNoMeta, monitorInit, restartState, failLogs,
      alertMilestones, pyInt, baseState, openTrade, paperEnv,
      TP1_FACTOR, TP1_AMOUNT, TP1_SL, TP2_FACTOR, TP2_AMOUNT,
      TP2_SL, TP3_FACTOR, TP3_AMOUNT, TP3_SL, HARD_STOP_LOSS,
      TRAILING_STOP_PERCENT, SIMULATED_SLIPPAGE, PRIORITY_FEE,
      SELL_COOLDOWN_SECONDS, status_OPEN_ne_CLOSED,
      status_OPEN_ne_SELL_REQUEST, status_PARTIAL_ne_CLOSED,
      status_PARTIAL_ne_SELL_REQUEST, intercalate_tp1, intercalate_tp3, stateAllButLast, tradeAllButLast, inputFiveX, inputTp1,
      intRange, intRangeGo]


set_option maxHeartbeats 1000000 in
/-- Claim C9 (counterexample): a cycle in which every price source fails
*is* skipped when no last known-good price has been cached yet
(trader.py:327 `continue`), refuting "the cycle is not skipped" as an
unconditional statement. -/
theorem c9_first_cycles_are_skipped :
    (monitorCycle 1 (monitorInit baseState 1) inputAllFail).events.skipped =
      true ∧
    allPriceSourcesFailed (monitorInit baseState 1) inputAllFail ∧
    (monitorInit baseState 1).lastValidPrice = 0 := by
  refine ⟨?_, ⟨rfl, rfl, rfl, rfl, Or.inl rfl⟩, rfl⟩
  norm_num [monitorCycle, decisionCore, afterPrice, resolvePrice,
      sell, mcStep, beStep, alertStep, tp1Step, tp2Step, tp3Step, raiseTo,
      cooldownActive, release, finishSell, realSellLoop, realSellLoopGo,
      updateTrade, updateTradeNoMeta, monitorInit, restartState, failLogs,
      alertMilestones, pyInt, baseState, openTrade, paperEnv,
      TP1_FACTOR, TP1_AMOUNT, TP1_SL, TP2_FACTOR, TP2_AMOUNT,
      TP2_SL, TP3_FACTOR, TP3_AMOUNT, TP3_SL, HARD_STOP_LOSS,
      TRAILING_STOP_PERCENT, SIMULATED_SLIPPAGE, PRIORITY_FEE,
      SELL_COOLDOWN_SECONDS, status_OPEN_ne_CLOSED,
      status_OPEN_ne_SELL_REQUEST, status_PARTIAL_ne_CLOSED,
      status_PARTIAL_ne_SELL_REQUEST, intercalate_tp1, intercalate_tp3, inputAllFail, inputTp1]

/-- Claim C9 (amended): when every price source fails, the
consecutive-failure counter is incremented and threshold log lines are
produced; if a last known-good price exists the cycle is not skipped and
that price is used as the cycle's current price, otherwise the cycle is
skipped. -/
theorem c9_fallback_to_last_good (s : MonitorState) (i : CycleInput)
    (lc : ℕ) (h : allPriceSourcesFailed s i) :
    (0 < s.lastValidPrice →
      (resolvePrice s i lc).price = some s.lastValidPrice ∧
      (resolvePrice s i lc).priceFailCount = s.priceFailCount + 1 ∧
      (resolvePrice s i lc).logs = failLogs (s.priceFailCount + 1)) ∧
    (¬ 0 < s.lastValidPrice →
      (resolvePrice s i lc).price = none ∧
      (resolvePrice s i lc).priceFailCount = s.priceFailCount + 1) :=
  resolvePrice_allFailed s i lc h

/-- Witness for the amended C9 with a cached last price of 3. -/
theorem c9_fallback_to_last_good_witness :
    (resolvePrice stateLast3 inputAllFail 1).price =
      some stateLast3.lastValidPrice ∧
    (resolvePrice stateLast3 inputAllFail 1).priceFailCount =
      stateLast3.priceFailCount + 1 :=
  ⟨((c9_fallback_to_last_good stateLast3 inputAllFail 1
      ⟨rfl, rfl, rfl, rfl, Or.inl rfl⟩).1 (by norm_num [stateLast3])).1,
   ((c9_fallback_to_last_good stateLast3 inputAllFail 1
      ⟨rfl, rfl, rfl, rfl, Or.inl rfl⟩).1 (by norm_num [stateLast3])).2.1⟩

set_option maxHeartbeats 1000000 in
/-- Claim C10: a sell call skipped by the per-address cooldown or by the
in-flight lock returns with the state unchanged and nothing to
distinguish it from a completed sell at the call site; the stop-loss
branch of the monitor breaks the loop unconditionally after calling
`sell`, so a cycle whose stop-loss sell was skipped by the cooldown
terminates monitoring with no ledger record and the position still
OPEN. -/
theorem c10_skipped_sell_is_silent :
    (∀ (s : TraderState) (env : SellEnv) (now p pct : ℚ) (reason : String),
      cooldownActive s now = true ∨ s.pendingSell = true →
        sell s env now p pct reason = (s, now)) ∧
    (monitorCycle 1 (monitorInit cooldownState 1)
        inputStopNow100).continueLoop = false ∧
    (monitorCycle 1 (monitorInit cooldownState 1)
        inputStopNow100).st.ts.ledger = [] ∧
    (monitorCycle 1 (monitorInit cooldownState 1)
        inputStopNow100).st.ts.trade = some openTrade ∧
    (monitorCycle 1 (monitorInit cooldownState 1)
        inputStopNow100).events.sellCalls = [(1, "STOP LOSS")] ∧
    cooldownActive cooldownState inputStopNow100.now = true := by
  refine ⟨?_, ?_, ?_, ?_, ?_, ?_⟩
  · intro s env now p pct reason h
    rcases h with h | h
    · exact sell_skip_cooldown s env now p pct reason h
    · by_cases hcd : cooldownActive s now = true
      · exact sell_skip_cooldown s env now p pct reason hcd
      · exact sell_skip_pending s env now p pct reason
          (by simpa using hcd) h
  all_goals
    norm_num [monitorCycle, decisionCore, afterPrice, resolvePrice,
      sell, mcStep, beStep, alertStep, tp1Step, tp2Step, tp3Step, raiseTo,
      cooldownActive, release, finishSell, realSellLoop, realSellLoopGo,
      updateTrade, updateTradeNoMeta, monitorInit, restartState, failLogs,
      alertMilestones, pyInt, baseState, openTrade, paperEnv,
      TP1_FACTOR, TP1_AMOUNT, TP1_SL, TP2_FACTOR, TP2_AMOUNT,
      TP2_SL, TP3_FACTOR, TP3_AMOUNT, TP3_SL, HARD_STOP_LOSS,
      TRAILING_STOP_PERCENT, SIMULATED_SLIPPAGE, PRIORITY_FEE,
      SELL_COOLDOWN_SECONDS, status_OPEN_ne_CLOSED,
      status_OPEN_ne_SELL_REQUEST, status_PARTIAL_ne_CLOSED,
      status_PARTIAL_ne_SELL_REQUEST, intercalate_tp1, intercalate_tp3, cooldownState, inputStopNow100, inputTp1]

/-- Witness for C10: the skipped sell itself, applied concretely. -/
theorem c10_skipped_sell_is_silent_witness :
    sell cooldownState paperEnv 100 (1/2) 1 "STOP LOSS" =
      (cooldownState, 100) :=
  c10_skipped_sell_is_silent.1 cooldownState paperEnv 100 (1/2) 1 "STOP LOSS"
    (Or.inl (by norm_num [cooldownActive, cooldownState,
      SELL_COOLDOWN_SECONDS]))

end CacheSniper
